import Mathlib

/-!
Verification development for the specado-core LLM gateway.

This file gives a shallow embedding of the parts of the code relevant to the
transformation engine, capability comparator, retry/routing machinery, HTTP
error mapping and secret redaction, together with theorems settling the
specification claims about them.

Modelling conventions:
* Rust machine integers (`u16`, `u32`, `u64`, `usize`) are modelled as `Nat`
  (no arithmetic in the embedded fragments can overflow at the sizes involved);
  `i32`/`i64` as `Int`.
* `f32`/`f64` values are modelled as `ℚ`; the float arithmetic appearing in the
  embedded code (multiplication by a power of the backoff base, `min`, cast to
  `u64`) is exact over the ranges exercised by the spec.
* `HashMap`/`HashSet` are modelled as association lists / lists; insertion
  replaces an existing key, iteration follows list order.
* Randomness (the retry jitter sample) and the JSON body parse of the HTTP
  error path are passed in as explicit inputs.
-/

namespace Specado

/-- Minimal model of `serde_json::Value`. -/
inductive Json where
  | null : Json
  | bool (b : Bool) : Json
  | num (n : Int) : Json
  | str (s : String) : Json
  | arr (xs : List Json) : Json
  | obj (fields : List (String × Json)) : Json
deriving Repr

/-- Insert into an association-list map, replacing an existing binding
(models `HashMap::insert`). -/
def insertMeta (m : List (String × Json)) (k : String) (v : Json) :
    List (String × Json) :=
  if m.any (fun kv => kv.1 == k) then
    m.map (fun kv => if kv.1 == k then (k, v) else kv)
  else
    m ++ [(k, v)]

/-- `protocol::types::MessageRole`. -/
inductive MessageRole where
  | system
  | user
  | assistant
  | function
  | tool
deriving DecidableEq, Repr

/-- `protocol::types::ContentPart`. -/
inductive ContentPart where
  | text (text : String)
  | image (url : Option String) (base64 : Option String)
  | audio (url : Option String) (base64 : Option String)
deriving DecidableEq, Repr

/-- `protocol::types::MessageContent`. -/
inductive MessageContent where
  | Text (s : String)
  | Parts (parts : List ContentPart)
deriving DecidableEq, Repr

/-- `protocol::types::FunctionCall`. -/
structure FunctionCall where
  name : String
  arguments : String
deriving DecidableEq, Repr

/-- `protocol::types::ToolCall`. -/
structure ToolCall where
  id : String
  tool_type : String
  function : FunctionCall
deriving DecidableEq, Repr

/-- `protocol::types::Message`.  The free-form metadata map is modelled as an
association list of `Json` values. -/
structure Message where
  role : MessageRole
  content : MessageContent
  name : Option String := none
  function_call : Option FunctionCall := none
  tool_calls : Option (List ToolCall) := none
  tool_call_id : Option String := none
  metadata : List (String × Json) := []
deriving Repr

/-- `Message::new` / the role-specific constructors (builder with only role and
text content set). -/
def Message.mk' (role : MessageRole) (content : String) : Message :=
  { role := role, content := .Text content }

/-- `Message::system`. -/
def Message.system (content : String) : Message := Message.mk' .system content

/-- `Message::user`. -/
def Message.user (content : String) : Message := Message.mk' .user content

/-- `Message::assistant`. -/
def Message.assistant (content : String) : Message := Message.mk' .assistant content

/-- `protocol::types::FunctionDefinition`. -/
structure FunctionDefinition where
  name : String
  description : Option String := none
  parameters : Option Json := none
deriving Repr

/-- `protocol::types::ToolDefinition`. -/
structure ToolDefinition where
  tool_type : String
  function : FunctionDefinition
deriving Repr

/-- `protocol::types::FunctionChoice`. -/
structure FunctionChoice where
  name : String
deriving DecidableEq, Repr

/-- `protocol::types::ToolChoice`. -/
inductive ToolChoice where
  | Mode (mode : String)
  | Function (choice_type : String) (function : FunctionChoice)
deriving DecidableEq, Repr

/-- `protocol::types::StreamOptions`. -/
structure StreamOptions where
  include_usage : Option Bool := none
deriving DecidableEq, Repr

/-- `protocol::types::ResponseFormat`. -/
inductive ResponseFormat where
  | Text
  | JsonObject
  | JsonSchema (schema : Json)
deriving Repr

/-- `protocol::types::ChatRequest`.  `f32` sampling controls are modelled as
`ℚ`, `usize`/`i64` as `Nat`/`Int`. -/
structure ChatRequest where
  model : String := ""
  messages : List Message := []
  temperature : Option ℚ := none
  max_tokens : Option Nat := none
  top_p : Option ℚ := none
  n : Option Nat := none
  stop : Option (List String) := none
  stream : Option Bool := none
  stream_options : Option StreamOptions := none
  frequency_penalty : Option ℚ := none
  presence_penalty : Option ℚ := none
  user : Option String := none
  response_format : Option ResponseFormat := none
  seed : Option Int := none
  tools : Option (List ToolDefinition) := none
  tool_choice : Option ToolChoice := none
  metadata : List (String × Json) := []
deriving Repr

/-- `ChatRequest::new`. -/
def ChatRequest.new (model : String) (messages : List Message) : ChatRequest :=
  { model := model, messages := messages }

/-- `providers::adapter::ProviderCapabilities`. -/
structure ProviderCapabilities where
  supports_system_role : Bool
  supports_json_mode : Bool
  supports_functions : Bool
  supports_streaming : Bool
  max_context_tokens : Nat
  supports_consecutive_same_role : Bool
  supports_temperature : Bool
  supports_top_p : Bool
  supports_max_tokens : Bool
  custom : List (String × Json)
deriving Repr

/-- A provider as used by the transformation engine and router: its name, its
hardcoded capabilities and its provider-specific final request transform
(`Provider::transform_request`). -/
structure Provider where
  name : String
  capabilities : ProviderCapabilities
  transformRequestHook : ChatRequest → ChatRequest

/-- `OpenAIProvider::new` capabilities. -/
def openaiCapabilities : ProviderCapabilities where
  supports_system_role := true
  supports_json_mode := true
  supports_functions := true
  supports_streaming := true
  max_context_tokens := 128000
  supports_consecutive_same_role := true
  supports_temperature := true
  supports_top_p := true
  supports_max_tokens := true
  custom := [("supports_response_format", .bool true), ("supports_seed", .bool true),
             ("supports_logprobs", .bool true), ("supports_n", .bool true)]

/-- `OpenAIProvider::transform_request` (identity: OpenAI is the native
format, the metadata inspections have no effect). -/
def openaiTransformRequest (request : ChatRequest) : ChatRequest := request

/-- `providers::openai::OpenAIProvider`. -/
def openaiProvider : Provider where
  name := "openai"
  capabilities := openaiCapabilities
  transformRequestHook := openaiTransformRequest

/-- `AnthropicProvider::new` capabilities. -/
def anthropicCapabilities : ProviderCapabilities where
  supports_system_role := false
  supports_json_mode := false
  supports_functions := false
  supports_streaming := true
  max_context_tokens := 200000
  supports_consecutive_same_role := false
  supports_temperature := true
  supports_top_p := true
  supports_max_tokens := true
  custom := [("supports_system_prompt", .bool true), ("model_prefix", .str "claude-3")]

/-- `AnthropicProvider::convert_messages`: any remaining system message is
converted to the user role, all other messages pass through. -/
def anthropicConvertMessages (messages : List Message) : List Message :=
  messages.map (fun m => if m.role = .system then { m with role := .user } else m)

/-- `AnthropicProvider::transform_request`. -/
def anthropicTransformRequest (request : ChatRequest) : ChatRequest :=
  let request := { request with messages := anthropicConvertMessages request.messages }
  match request.max_tokens with
  | some mt =>
      { request with
        metadata := insertMeta request.metadata "max_tokens_to_sample" (.num (mt : Int)) }
  | none => request

/-- `providers::anthropic::AnthropicProvider`. -/
def anthropicProvider : Provider where
  name := "anthropic"
  capabilities := anthropicCapabilities
  transformRequestHook := anthropicTransformRequest

/-- The providers the program can instantiate
(`providers::adapter::ProviderType::create_provider`). -/
def programProviders : List Provider := [openaiProvider, anthropicProvider]

/-- `providers::transform::TransformResult`. -/
structure TransformResult where
  transformed : ChatRequest
  lossy : Bool
  reasons : List String
deriving Repr

/-- `providers::transform::LossinessReason`. -/
inductive LossinessReason where
  | SystemRoleMerged
  | JsonModeNotSupported
  | FunctionCallingNotSupported
  | StreamingNotSupported
  | MaxTokensExceeded
  | ConsecutiveSameRoleNotSupported
  | ParameterNotSupported (param : String)
  | CustomReason (reason : String)
deriving DecidableEq, Repr

/-- `LossinessReason::as_str`. -/
def LossinessReason.asStr : LossinessReason → String
  | .SystemRoleMerged => "system_role.merged"
  | .JsonModeNotSupported => "response_format.json_mode.unsupported"
  | .FunctionCallingNotSupported => "tools.function_calling.unsupported"
  | .StreamingNotSupported => "streaming.unsupported"
  | .MaxTokensExceeded => "limits.max_tokens.exceeded"
  | .ConsecutiveSameRoleNotSupported => "messages.consecutive_same_role.unsupported"
  | .ParameterNotSupported param => "param.unsupported." ++ param
  | .CustomReason reason => reason

/-- `TransformationEngine::has_system_message`. -/
def hasSystemMessage (request : ChatRequest) : Bool :=
  request.messages.any (fun m => m.role = .system)

/-- Accumulating a system message text into the running system content:
`push_str("\n\n")` when non-empty, then `push_str(text)`. -/
def appendSystemText (acc t : String) : String :=
  if acc.isEmpty then acc ++ t else acc ++ "\n\n" ++ t

/-- The synthesized user message holding leftover system content
(`Message { role: User, content: Text(system_content), .. }`). -/
def syntheticUserMessage (content : String) : Message :=
  { role := .user, content := .Text content }

/-- Loop body of `TransformationEngine::merge_system_messages`, threading the
accumulated `system_content`.  Returns the merged messages and the additional
lossiness reasons in push order. -/
def mergeSystemGo : List Message → String → List Message × List String
  | [], sysContent =>
      if sysContent.isEmpty then ([], []) else ([syntheticUserMessage sysContent], [])
  | m :: rest, sysContent =>
      match m.role with
      | .system =>
          match m.content with
          | .Text t => mergeSystemGo rest (appendSystemText sysContent t)
          | .Parts _ =>
              let r := mergeSystemGo rest
                (appendSystemText sysContent "[System message with multimodal content]")
              (r.1, "content.parts.degraded_to_text" :: r.2)
      | .user =>
          if sysContent.isEmpty then
            let r := mergeSystemGo rest sysContent
            (m :: r.1, r.2)
          else
            match m.content with
            | .Text userText =>
                let r := mergeSystemGo rest ""
                ({ m with content := .Text (sysContent ++ "\n\n" ++ userText) } :: r.1, r.2)
            | .Parts _ =>
                let r := mergeSystemGo rest ""
                ({ m with
                    content := .Text (sysContent ++ "\n\n[User message with multimodal content]") }
                  :: r.1,
                 "content.parts.degraded_for_merge" :: r.2)
      | .assistant => let r := mergeSystemGo rest sysContent; (m :: r.1, r.2)
      | .function => let r := mergeSystemGo rest sysContent; (m :: r.1, r.2)
      | .tool => let r := mergeSystemGo rest sysContent; (m :: r.1, r.2)

/-- `TransformationEngine::merge_system_messages`. -/
def merge_system_messages (messages : List Message) : List Message × List String :=
  mergeSystemGo messages ""

/-- Character count of a message's content for token estimation
(`text.len()` is a byte count in the source). -/
def contentCharCount : MessageContent → Nat
  | .Text t => t.utf8ByteSize
  | .Parts parts =>
      parts.foldl
        (fun acc p => acc + match p with | .text t => t.utf8ByteSize | _ => 1000) 0

/-- `TransformationEngine::estimate_tokens` (4 chars per token, floor). -/
def estimate_tokens (request : ChatRequest) : Nat :=
  (request.messages.foldl (fun acc m => acc + contentCharCount m.content) 0) / 4

/-- `TransformationEngine::has_consecutive_same_role`. -/
def has_consecutive_same_role : List Message → Bool
  | m1 :: m2 :: rest =>
      (decide (m1.role = m2.role) && !(decide (m2.role = .system)))
        || has_consecutive_same_role (m2 :: rest)
  | _ => false

/-- Content merging inside `merge_consecutive_same_role`: returns the merged
content and the optional degradation reason. -/
def mergeContentPair : MessageContent → MessageContent → MessageContent × Option String
  | .Text a, .Text b => (.Text (a ++ "\n\n" ++ b), none)
  | .Text a, .Parts _ =>
      (.Text (a ++ "\n\n" ++ "[Multimodal content]"), some "content.parts.degraded_in_merge")
  | .Parts _, .Text b =>
      (.Text ("[Multimodal content]" ++ "\n\n" ++ b), some "content.parts.degraded_in_merge")
  | .Parts _, .Parts _ =>
      (.Text "[Multiple multimodal messages merged]", some "content.parts.multiple_degraded")

/-- Loop body of `TransformationEngine::merge_consecutive_same_role` with the
current group held in the first argument. -/
def mergeConsecGo : Message → List Message → List Message × List String
  | g, [] => ([g], [])
  | g, m :: rest =>
      if g.role = m.role ∧ m.role ≠ .system then
        let p := mergeContentPair g.content m.content
        let r := mergeConsecGo { g with content := p.1 } rest
        (r.1, match p.2 with | some reason => reason :: r.2 | none => r.2)
      else
        let r := mergeConsecGo m rest
        (g :: r.1, r.2)

/-- `TransformationEngine::merge_consecutive_same_role`. -/
def merge_consecutive_same_role (messages : List Message) : List Message × List String :=
  match messages with
  | [] => ([], [])
  | m :: rest => mergeConsecGo m rest

/-- Intermediate state of `TransformationEngine::transform_request`: the
request being rewritten plus the lossiness accumulator. -/
structure TState where
  req : ChatRequest
  lossy : Bool
  reasons : List String

/-- System-role check and merge step of `transform_request`. -/
def stepSystemRole (caps : ProviderCapabilities) (s : TState) : TState :=
  if !caps.supports_system_role && hasSystemMessage s.req then
    let r := merge_system_messages s.req.messages
    { req := { s.req with messages := r.1 },
      lossy := true,
      reasons := s.reasons ++ (LossinessReason.SystemRoleMerged.asStr :: r.2) }
  else s

/-- JSON-mode check step of `transform_request`. -/
def stepResponseFormat (caps : ProviderCapabilities) (s : TState) : TState :=
  match s.req.response_format with
  | some .JsonObject =>
      if !caps.supports_json_mode then
        { req := { s.req with response_format := none },
          lossy := true,
          reasons := s.reasons ++ [LossinessReason.JsonModeNotSupported.asStr] }
      else s
  | some (.JsonSchema _) =>
      if !caps.supports_json_mode then
        { req := { s.req with response_format := none },
          lossy := true,
          reasons := s.reasons ++ ["response_format.json_schema.unsupported"] }
      else s
  | some .Text => s
  | none => s

/-- Function-calling check step of `transform_request`. -/
def stepTools (caps : ProviderCapabilities) (s : TState) : TState :=
  if s.req.tools.isSome && !caps.supports_functions then
    { req := { s.req with tools := none, tool_choice := none },
      lossy := true,
      reasons := s.reasons ++ [LossinessReason.FunctionCallingNotSupported.asStr] }
  else s

/-- Streaming check step of `transform_request`. -/
def stepStreaming (caps : ProviderCapabilities) (s : TState) : TState :=
  if s.req.stream == some true && !caps.supports_streaming then
    { req := { s.req with stream := some false },
      lossy := true,
      reasons := s.reasons ++ [LossinessReason.StreamingNotSupported.asStr] }
  else s

/-- Temperature check step of `transform_request`. -/
def stepTemperature (caps : ProviderCapabilities) (s : TState) : TState :=
  if s.req.temperature.isSome && !caps.supports_temperature then
    { req := { s.req with temperature := none },
      lossy := true,
      reasons := s.reasons ++ [(LossinessReason.ParameterNotSupported "temperature").asStr] }
  else s

/-- Top-p check step of `transform_request`. -/
def stepTopP (caps : ProviderCapabilities) (s : TState) : TState :=
  if s.req.top_p.isSome && !caps.supports_top_p then
    { req := { s.req with top_p := none },
      lossy := true,
      reasons := s.reasons ++ [(LossinessReason.ParameterNotSupported "top_p").asStr] }
  else s

/-- Consecutive-same-role check and merge step of `transform_request`. -/
def stepConsecutive (caps : ProviderCapabilities) (s : TState) : TState :=
  if !caps.supports_consecutive_same_role && has_consecutive_same_role s.req.messages then
    let r := merge_consecutive_same_role s.req.messages
    { req := { s.req with messages := r.1 },
      lossy := true,
      reasons := s.reasons ++ (LossinessReason.ConsecutiveSameRoleNotSupported.asStr :: r.2) }
  else s

/-- Token-limit check step of `transform_request` (non-mutating). -/
def stepTokenLimit (caps : ProviderCapabilities) (s : TState) : TState :=
  if estimate_tokens s.req > caps.max_context_tokens then
    { req := s.req,
      lossy := true,
      reasons := s.reasons ++ [LossinessReason.MaxTokensExceeded.asStr] }
  else s

/-- `TransformationEngine::transform_request` against a target provider. -/
def transform_request (target : Provider) (request : ChatRequest) : TransformResult :=
  let caps := target.capabilities
  let s := stepTokenLimit caps (stepConsecutive caps (stepTopP caps (stepTemperature caps
             (stepStreaming caps (stepTools caps (stepResponseFormat caps
               (stepSystemRole caps ⟨request, false, []⟩)))))))
  let transformed := target.transformRequestHook s.req
  let transformed :=
    if s.lossy then
      { transformed with
        metadata :=
          insertMeta (insertMeta transformed.metadata "lossy" (.bool true))
            "lossy_reasons" (.arr (s.reasons.map .str)) }
    else transformed
  { transformed := transformed, lossy := s.lossy, reasons := s.reasons }

/-- `capabilities::modality::Modality`. -/
inductive Modality where
  | Text
  | Image
  | Audio
  | Video
  | Document
  | Code
  | Custom (s : String)
deriving DecidableEq, Repr

/-- The Rust `format!("{:?}", modality)` rendering. -/
def Modality.debugStr : Modality → String
  | .Text => "Text"
  | .Image => "Image"
  | .Audio => "Audio"
  | .Video => "Video"
  | .Document => "Document"
  | .Code => "Code"
  | .Custom s => "Custom(\"" ++ s ++ "\")"

/-- `capabilities::modality::ImageConfig` (sets modelled as lists). -/
structure ImageConfig where
  formats : List String
  max_width : Option Nat := none
  max_height : Option Nat := none
  max_size_bytes : Option Nat := none
  max_images_per_request : Option Nat := none
  generation_sizes : Option (List String) := none
deriving DecidableEq, Repr

/-- `capabilities::modality::AudioConfig`. -/
structure AudioConfig where
  formats : List String
  max_duration_seconds : Option Nat := none
  max_size_bytes : Option Nat := none
  transcription_languages : Option (List String) := none
deriving DecidableEq, Repr

/-- `capabilities::modality::VideoConfig` / `DocumentConfig`, reduced to the
fields the comparator could see (none are consulted). -/
structure VideoConfig where
  formats : List String
deriving DecidableEq, Repr

structure DocumentConfig where
  formats : List String
deriving DecidableEq, Repr

/-- `capabilities::modality::ModalityConfigs`. -/
structure ModalityConfigs where
  image : Option ImageConfig := none
  audio : Option AudioConfig := none
  video : Option VideoConfig := none
  document : Option DocumentConfig := none
deriving DecidableEq, Repr

/-- `capabilities::modality::ModalitySupport`; the hash sets are modelled as
lists iterated in order. -/
structure ModalitySupport where
  input : List Modality
  output : List Modality
  configs : ModalityConfigs := {}
deriving DecidableEq, Repr

/-- `ModalitySupport::default` (text in, text out). -/
def ModalitySupport.default : ModalitySupport where
  input := [.Text]
  output := [.Text]

/-- `capabilities::ModelFeatures`. -/
structure ModelFeatures where
  function_calling : Bool := false
  json_mode : Bool := false
  streaming : Bool := false
  logprobs : Bool := false
  multiple_responses : Bool := false
  stop_sequences : Bool := false
  seed_support : Bool := false
  tool_use : Bool := false
  vision : Bool := false
deriving DecidableEq, Repr

/-- `capabilities::ParameterSupport<T>`. -/
structure ParameterSupport (α : Type) where
  supported : Bool := false
  min : Option α := none
  max : Option α := none
  default : Option α := none
deriving Repr

/-- `capabilities::ControlParameters` (`f32` as `ℚ`, `i32` as `Int`). -/
structure ControlParameters where
  temperature : ParameterSupport ℚ := {}
  top_p : ParameterSupport ℚ := {}
  top_k : ParameterSupport Int := {}
  max_tokens : ParameterSupport Int := {}
  frequency_penalty : ParameterSupport ℚ := {}
  presence_penalty : ParameterSupport ℚ := {}
  repetition_penalty : ParameterSupport ℚ := {}
deriving Repr

/-- `capabilities::RoleSupport`. -/
structure RoleSupport where
  system : Bool := false
  user : Bool := false
  assistant : Bool := false
  function : Bool := false
  tool : Bool := false
  custom_roles : List String := []
deriving DecidableEq, Repr

/-- `capabilities::constraints::TokenLimits`. -/
structure TokenLimits where
  max_context_window : Option Nat := none
  max_input_tokens : Option Nat := none
  max_output_tokens : Option Nat := none
  max_tokens_per_message : Option Nat := none
  encoding : Option String := none
deriving DecidableEq, Repr

/-- `capabilities::constraints::RateLimits`. -/
structure RateLimits where
  requests_per_minute : Option Nat := none
  requests_per_hour : Option Nat := none
  requests_per_day : Option Nat := none
  tokens_per_minute : Option Nat := none
  tokens_per_hour : Option Nat := none
  tokens_per_day : Option Nat := none
  max_concurrent_requests : Option Nat := none
deriving DecidableEq, Repr

/-- `capabilities::constraints::MessageConstraints`. -/
structure MessageConstraints where
  max_messages_per_conversation : Option Nat := none
  max_message_length : Option Nat := none
  min_messages_required : Option Nat := none
  max_system_message_length : Option Nat := none
  allow_empty_messages : Bool := false
  allow_consecutive_same_role : Bool := false
deriving DecidableEq, Repr

/-- `capabilities::constraints::TimeoutConstraints`. -/
structure TimeoutConstraints where
  max_request_timeout_seconds : Option Nat := none
  default_timeout_seconds : Option Nat := none
  stream_timeout_seconds : Option Nat := none
  connection_timeout_seconds : Option Nat := none
deriving DecidableEq, Repr

/-- `capabilities::constraints::Constraints`. -/
structure Constraints where
  tokens : TokenLimits := {}
  rate_limits : RateLimits := {}
  messages : MessageConstraints := {}
  timeouts : TimeoutConstraints := {}
deriving DecidableEq, Repr

/-- `capabilities::Extensions`. -/
structure Extensions where
  custom : List (String × Json) := []
  experimental : List String := []
deriving Repr

/-- `capabilities::Capability`. -/
structure Capability where
  version : String
  modalities : ModalitySupport
  features : ModelFeatures
  parameters : ControlParameters
  roles : RoleSupport
  constraints : Constraints
  extensions : Extensions
deriving Repr

/-- `Capability::default`. -/
def Capability.defaultCap : Capability where
  version := "0.1.0"
  modalities := ModalitySupport.default
  features := {}
  parameters := {}
  roles := {}
  constraints := {}
  extensions := {}

/-- `capabilities::comparison::LossinessType`. -/
inductive LossinessType where
  | MissingFeature (f : String)
  | MissingModality (m : String)
  | ConstrainedParameter (p : String)
  | MissingRole (r : String)
  | TokenLimitExceeded
  | RateLimitReduced
  | UnsupportedFormat (f : String)
  | MissingExtension (e : String)
deriving DecidableEq, Repr

/-- `capabilities::comparison::LossinessSeverity` (derived `Ord` follows
declaration order). -/
inductive LossinessSeverity where
  | None
  | Low
  | Medium
  | High
  | Critical
deriving DecidableEq, Repr

/-- Rank realizing the derived ordering on severities. -/
def LossinessSeverity.rank : LossinessSeverity → Nat
  | .None => 0
  | .Low => 1
  | .Medium => 2
  | .High => 3
  | .Critical => 4

/-- `capabilities::comparison::LossinessImpact`. -/
inductive LossinessImpact where
  | None
  | Minor
  | Major
deriving DecidableEq, Repr

/-- `capabilities::comparison::ConstraintDifference`. -/
structure ConstraintDifference where
  capability : String
  source_value : Json
  target_value : Json
  impact : LossinessImpact
deriving Repr

/-- `capabilities::comparison::LossinessReport`. -/
structure LossinessReport where
  is_lossy : Bool
  lossiness_types : List LossinessType
  severity : LossinessSeverity
  details : List String
  recommendations : List String
deriving Repr

/-- `capabilities::comparison::CapabilityComparison`. -/
structure CapabilityComparison where
  missing_capabilities : List String
  constrained_capabilities : List ConstraintDifference
  additional_capabilities : List String
  lossiness_report : LossinessReport
deriving Repr

/-- `CapabilityComparison::compare_features`: the pushes to
`missing`, `lossiness` and `details`, in source order. -/
def compare_features (source target : Capability) :
    List String × List LossinessType × List String :=
  let e1 :=
    if source.features.function_calling && !target.features.function_calling then
      (["function_calling"], [LossinessType.MissingFeature "function_calling"],
       ["Target provider does not support function calling"])
    else ([], [], [])
  let e2 :=
    if source.features.json_mode && !target.features.json_mode then
      (["json_mode"], [LossinessType.MissingFeature "json_mode"],
       ["Target provider does not support JSON mode for structured output"])
    else ([], [], [])
  let e3 :=
    if source.features.streaming && !target.features.streaming then
      (["streaming"], [LossinessType.MissingFeature "streaming"],
       ["Target provider does not support streaming responses"])
    else ([], [], [])
  let e4 :=
    if source.features.vision && !target.features.vision then
      (["vision"], [LossinessType.MissingFeature "vision"],
       ["Target provider does not support vision/image analysis"])
    else ([], [], [])
  let e5 :=
    if source.features.tool_use && !target.features.tool_use
        && !target.features.function_calling then
      (["tool_use"], [LossinessType.MissingFeature "tool_use"],
       ["Target provider does not support tool use or function calling"])
    else ([], [], [])
  (e1.1 ++ e2.1 ++ e3.1 ++ e4.1 ++ e5.1,
   e1.2.1 ++ e2.2.1 ++ e3.2.1 ++ e4.2.1 ++ e5.2.1,
   e1.2.2 ++ e2.2.2 ++ e3.2.2 ++ e4.2.2 ++ e5.2.2)

/-- `CapabilityComparison::compare_modalities`. -/
def compare_modalities (source target : Capability) :
    List String × List LossinessType × List String :=
  let missingIn := source.modalities.input.filter
    (fun m => !(target.modalities.input.contains m))
  let missingOut := source.modalities.output.filter
    (fun m => !(target.modalities.output.contains m))
  (missingIn.map (fun m => "input_" ++ m.debugStr)
     ++ missingOut.map (fun m => "output_" ++ m.debugStr),
   missingIn.map (fun m => LossinessType.MissingModality m.debugStr)
     ++ missingOut.map (fun m => LossinessType.MissingModality m.debugStr),
   missingIn.map (fun m => "Target does not support " ++ m.debugStr ++ " input")
     ++ missingOut.map (fun m => "Target does not support " ++ m.debugStr ++ " output"))

/-- `CapabilityComparison::compare_parameters`. -/
def compare_parameters (source target : Capability) :
    List ConstraintDifference × List LossinessType × List String :=
  let e1 :=
    if source.parameters.temperature.supported
        && !target.parameters.temperature.supported then
      (([] : List ConstraintDifference),
       [LossinessType.ConstrainedParameter "temperature"],
       ["Target does not support temperature parameter"])
    else ([], [], [])
  let e2 :=
    match source.parameters.max_tokens.max, target.parameters.max_tokens.max with
    | some source_max, some target_max =>
        if target_max < source_max then
          ([({ capability := "max_tokens", source_value := .num source_max,
               target_value := .num target_max, impact := .Major } : ConstraintDifference)],
           [LossinessType.ConstrainedParameter "max_tokens"],
           ["Target max_tokens (" ++ toString target_max
              ++ ") is less than source (" ++ toString source_max ++ ")"])
        else ([], [], [])
    | _, _ => ([], [], [])
  (e1.1 ++ e2.1, e1.2.1 ++ e2.2.1, e1.2.2 ++ e2.2.2)

/-- `CapabilityComparison::compare_roles`. -/
def compare_roles (source target : Capability) :
    List String × List LossinessType × List String :=
  let e1 :=
    if source.roles.system && !target.roles.system then
      (["system_role"], [LossinessType.MissingRole "system"],
       ["Target does not support system role for instructions"])
    else ([], [], [])
  let e2 :=
    if source.roles.function && !target.roles.function then
      (["function_role"], [LossinessType.MissingRole "function"],
       ["Target does not support function role for function results"])
    else ([], [], [])
  (e1.1 ++ e2.1, e1.2.1 ++ e2.2.1, e1.2.2 ++ e2.2.2)

/-- `CapabilityComparison::compare_constraints`. -/
def compare_constraints (source target : Capability) :
    List ConstraintDifference × List LossinessType × List String :=
  let e1 :=
    match source.constraints.tokens.max_context_window,
          target.constraints.tokens.max_context_window with
    | some source_ctx, some target_ctx =>
        if target_ctx < source_ctx then
          ([({ capability := "context_window", source_value := .num (source_ctx : Int),
               target_value := .num (target_ctx : Int), impact := .Major } : ConstraintDifference)],
           [LossinessType.TokenLimitExceeded],
           ["Target context window (" ++ toString target_ctx
              ++ ") is smaller than source (" ++ toString source_ctx ++ ")"])
        else ([], [], [])
    | _, _ => ([], [], [])
  let e2 :=
    match source.constraints.rate_limits.requests_per_minute,
          target.constraints.rate_limits.requests_per_minute with
    | some source_rpm, some target_rpm =>
        if target_rpm < source_rpm then
          (([] : List ConstraintDifference),
           [LossinessType.RateLimitReduced],
           ["Target rate limit (" ++ toString target_rpm
              ++ " req/min) is lower than source (" ++ toString source_rpm ++ " req/min)"])
        else ([], [], [])
    | _, _ => ([], [], [])
  (e1.1 ++ e2.1, e1.2.1 ++ e2.2.1, e1.2.2 ++ e2.2.2)

/-- `CapabilityComparison::generate_recommendations`. -/
def generate_recommendations (lossiness_types : List LossinessType) : List String :=
  let r1 :=
    if lossiness_types.any
        (fun t => match t with | .MissingFeature f => f == "function_calling" | _ => false) then
      ["Consider using tool_use format if target supports it, or restructure request without functions"]
    else []
  let r2 :=
    if lossiness_types.any (fun t => match t with | .TokenLimitExceeded => true | _ => false) then
      ["Consider chunking the input or using a model with larger context window"]
    else []
  let r3 :=
    if lossiness_types.any (fun t => match t with | .MissingModality _ => true | _ => false) then
      ["Consider preprocessing multimodal inputs or using a multimodal-capable provider"]
    else []
  r1 ++ r2 ++ r3

/-- Per-reason severity inside `CapabilityComparison::determine_severity`. -/
def severityOfLoss : LossinessType → LossinessSeverity
  | .MissingFeature f =>
      if f == "function_calling" || f == "tool_use" then .High
      else if f == "json_mode" then .Medium
      else if f == "streaming" then .Low
      else .Medium
  | .MissingModality _ => .Critical
  | .TokenLimitExceeded => .High
  | .ConstrainedParameter _ => .Medium
  | .MissingRole r => if r == "system" then .Medium else .Low
  | .RateLimitReduced => .Low
  | .UnsupportedFormat _ => .High
  | .MissingExtension _ => .Low

/-- `CapabilityComparison::determine_severity`. -/
def determine_severity (lossiness_types : List LossinessType) : LossinessSeverity :=
  if lossiness_types.isEmpty then .None
  else
    lossiness_types.foldl
      (fun mx t =>
        let s := severityOfLoss t
        if mx.rank < s.rank then s else mx)
      .Low

/-- `CapabilityComparison::compare`. -/
def CapabilityComparison.compare (source target : Capability) : CapabilityComparison :=
  let f := compare_features source target
  let m := compare_modalities source target
  let p := compare_parameters source target
  let r := compare_roles source target
  let c := compare_constraints source target
  let lossiness_types := f.2.1 ++ m.2.1 ++ p.2.1 ++ r.2.1 ++ c.2.1
  let details := f.2.2 ++ m.2.2 ++ p.2.2 ++ r.2.2 ++ c.2.2
  { missing_capabilities := f.1 ++ m.1 ++ r.1,
    constrained_capabilities := p.1 ++ c.1,
    additional_capabilities := [],
    lossiness_report :=
      { is_lossy := !lossiness_types.isEmpty,
        lossiness_types := lossiness_types,
        severity := determine_severity lossiness_types,
        details := details,
        recommendations := generate_recommendations lossiness_types } }

/-- `std::time::Duration`, at millisecond precision (all durations built by the
embedded code are whole milliseconds). -/
structure Duration where
  millis : Nat
deriving DecidableEq, Repr

/-- `Duration::from_secs`. -/
def Duration.from_secs (s : Nat) : Duration := ⟨s * 1000⟩

/-- `Duration::from_millis`. -/
def Duration.from_millis (m : Nat) : Duration := ⟨m⟩

/-- Drop trailing `'0'` characters. -/
def dropTrailingZeros (s : String) : String :=
  ⟨(s.data.reverse.dropWhile (fun c => c == '0')).reverse⟩

/-- Rust `format!("{:?}", duration)` for whole-millisecond durations. -/
def Duration.debugStr (d : Duration) : String :=
  if d.millis ≥ 1000 then
    let s := d.millis / 1000
    let frac := d.millis % 1000
    if frac = 0 then toString s ++ "s"
    else
      let pad := (if frac < 10 then "00" else if frac < 100 then "0" else "") ++ toString frac
      toString s ++ "." ++ dropTrailingZeros pad ++ "s"
  else if d.millis > 0 then toString d.millis ++ "ms"
  else "0ns"

/-- `providers::routing::ProviderError`. -/
inductive ProviderError where
  | RateLimit (retry_after : Option Duration)
  | Timeout
  | ServerError (status_code : Nat) (message : String)
  | InvalidRequest (message : String)
  | AuthenticationError
  | ModelNotAvailable (model : String)
  | NetworkError (message : String)
  | Custom (code : String) (message : String)
deriving DecidableEq, Repr

/-- `ProviderError::is_retryable`. -/
def ProviderError.is_retryable : ProviderError → Bool
  | .RateLimit _ => true
  | .Timeout => true
  | .ServerError _ _ => true
  | .NetworkError _ => true
  | .ModelNotAvailable _ => true
  | .InvalidRequest _ => false
  | .AuthenticationError => false
  | .Custom _ _ => false

/-- `ProviderError::retry_delay`. -/
def ProviderError.retry_delay : ProviderError → Option Duration
  | .RateLimit retry_after => retry_after
  | .Timeout => some (Duration.from_secs 1)
  | .ServerError _ _ => some (Duration.from_secs 2)
  | .NetworkError _ => some (Duration.from_secs 1)
  | _ => none

/-- The variant (kind) of a provider error, forgetting payloads. -/
inductive ErrorKind where
  | rateLimit
  | timeout
  | serverError
  | invalidRequest
  | authentication
  | modelNotAvailable
  | network
  | custom
deriving DecidableEq, Repr

/-- Kind projection for `ProviderError`. -/
def ProviderError.kind : ProviderError → ErrorKind
  | .RateLimit _ => .rateLimit
  | .Timeout => .timeout
  | .ServerError _ _ => .serverError
  | .InvalidRequest _ => .invalidRequest
  | .AuthenticationError => .authentication
  | .ModelNotAvailable _ => .modelNotAvailable
  | .NetworkError _ => .network
  | .Custom _ _ => .custom

/-- `impl Display for ProviderError`. -/
def ProviderError.toDisplay : ProviderError → String
  | .RateLimit (some d) => "Rate limit exceeded, retry after " ++ d.debugStr
  | .RateLimit none => "Rate limit exceeded"
  | .Timeout => "Request timeout"
  | .ServerError status_code message =>
      "Server error (" ++ toString status_code ++ "): " ++ message
  | .InvalidRequest message => "Invalid request: " ++ message
  | .AuthenticationError => "Authentication failed"
  | .ModelNotAvailable model => "Model '" ++ model ++ "' not available"
  | .NetworkError message => "Network error: " ++ message
  | .Custom code message => "Error [" ++ code ++ "]: " ++ message

/-- `providers::retry::RetryPolicy` (`f64` fields as `ℚ`). -/
structure RetryPolicy where
  max_retries : Nat
  initial_delay_ms : Nat
  max_delay_ms : Nat
  exponential_base : ℚ
  jitter_factor : ℚ
  respect_retry_after : Bool
  timeout_ms : Option Nat
deriving DecidableEq, Repr

/-- `RetryPolicy::default`. -/
def RetryPolicy.defaultPolicy : RetryPolicy where
  max_retries := 3
  initial_delay_ms := 100
  max_delay_ms := 10000
  exponential_base := 2
  jitter_factor := 1/10
  respect_retry_after := true
  timeout_ms := some 30000

/-- The Rust `f64 as u64` cast, for the values produced by
`calculate_delay` (truncation toward zero, saturating at zero from below):
equal to `⌊q⌋.toNat`. -/
def f64_as_u64 (q : ℚ) : Nat := (q.num / q.den).toNat

/-- `RetryPolicy::calculate_delay`.  The uniform jitter sample drawn from
`[-capped*jitter, +capped*jitter]` is passed in as the explicit input
`jitterSample`; it is only consulted when `jitter_factor > 0`. -/
def calculate_delay (p : RetryPolicy) (attempt : Nat) (error : ProviderError)
    (jitterSample : ℚ) : Duration :=
  let backoff : Duration :=
    let base_delay : ℚ := (p.initial_delay_ms : ℚ) * p.exponential_base ^ attempt
    let capped_delay : ℚ := min base_delay (p.max_delay_ms : ℚ)
    let delay_with_jitter : ℚ :=
      if 0 < p.jitter_factor then max (capped_delay + jitterSample) 0 else capped_delay
    ⟨f64_as_u64 delay_with_jitter⟩
  if p.respect_retry_after then
    match error.retry_delay with
    | some retry_after => retry_after
    | none => backoff
  else backoff

/-- `RetryPolicy::should_retry`. -/
def should_retry (p : RetryPolicy) (error : ProviderError) (attempt : Nat) : Bool :=
  if attempt ≥ p.max_retries then false else error.is_retryable

/-- Rust-style `str::contains` on byte-free character lists: prefix test. -/
def charsHavePrefix : List Char → List Char → Bool
  | [], _ => true
  | _ :: _, [] => false
  | a :: as, b :: bs => a == b && charsHavePrefix as bs

/-- Rust-style `str::contains`: substring occurrence anywhere. -/
def charsContain (pat : List Char) : List Char → Bool
  | [] => charsHavePrefix pat []
  | b :: bs => charsHavePrefix pat (b :: bs) || charsContain pat bs

/-- `str::contains` for strings. -/
def containsSubstr (s pat : String) : Bool := charsContain pat.data s.data

/-- Rust `str::to_lowercase` (character-wise lowering; the embedded strings
are ASCII). -/
def strToLower (s : String) : String := ⟨s.data.map Char.toLower⟩

/-- `HttpClient::validate_content_type`: accepts when the header is absent,
otherwise requires the lowercased value to contain `application/json`. -/
def validate_content_type (content_type : Option String) : Except ProviderError Unit :=
  match content_type with
  | some ct =>
      let content_type_str := strToLower ct
      if !(containsSubstr content_type_str "application/json") then
        .error (.Custom "INVALID_CONTENT_TYPE"
          ("Expected application/json, got: " ++ content_type_str))
      else .ok ()
  | none => .ok ()

/-- `http::error::ErrorDetails` (the result of parsing the error body). -/
structure ErrorDetails where
  message : String
  retry_after_seconds : Option Nat
deriving DecidableEq, Repr

/-- The suffix following the first occurrence of `pat` (Rust `str::find`
plus slicing). -/
def charsAfterFirst (pat : List Char) : List Char → Option (List Char)
  | [] => if charsHavePrefix pat [] then some [] else none
  | b :: bs =>
      if charsHavePrefix pat (b :: bs) then some ((b :: bs).drop pat.length)
      else charsAfterFirst pat bs

/-- The characters strictly before the first occurrence of `pat`
(`none` when `pat` does not occur). -/
def charsBeforeFirst (pat : List Char) : List Char → Option (List Char)
  | [] => if charsHavePrefix pat [] then some [] else none
  | b :: bs =>
      if charsHavePrefix pat (b :: bs) then some []
      else (charsBeforeFirst pat bs).map (fun r => b :: r)

/-- One quoted-pattern extraction step of `extract_model_from_error`. -/
def extractQuoted (message : String) (openPat closePat : String) : Option String :=
  match charsAfterFirst openPat.data message.data with
  | some rest =>
      match charsBeforeFirst closePat.data rest with
      | some piece => some ⟨piece⟩
      | none => none
  | none => none

/-- `http::error::extract_model_from_error`: best-effort extraction of the
model name from patterns like `model 'gpt-4' not found`. -/
def extract_model_from_error (message : String) : Option String :=
  match extractQuoted message "model '" "'" with
  | some m => some m
  | none => extractQuoted message "model \"" "\""

/-- `http::error::map_http_error`.  The `serde_json` parse of the body into
`ErrorDetails` happens upstream and is passed in as `error_details`. -/
def map_http_error (status : Nat) (error_details : Option ErrorDetails)
    (body : Option String) (request_id : String) : ProviderError :=
  let error_message :=
    match error_details with
    | some d => d.message
    | none =>
        match body with
        | some b => b
        | none => "HTTP error " ++ toString status
  let message_with_id := error_message ++ " [request_id: " ++ request_id ++ "]"
  if status = 401 then .AuthenticationError
  else if status = 429 then
    .RateLimit ((error_details.bind (fun d => d.retry_after_seconds)).map Duration.from_secs)
  else if status = 400 then .InvalidRequest message_with_id
  else if status = 404 then
    .ModelNotAvailable ((extract_model_from_error error_message).getD "unknown")
  else if status = 408 ∨ status = 504 then .Timeout
  else if 500 ≤ status ∧ status ≤ 599 then .ServerError status message_with_id
  else if 400 ≤ status ∧ status ≤ 499 then .InvalidRequest message_with_id
  else .Custom ("HTTP_" ++ toString status) message_with_id

/-- Digit-string parsing (the all-digits case of `u64::from_str`). -/
def parseDigitsAux : List Char → Nat → Option Nat
  | [], acc => some acc
  | c :: cs, acc =>
      if c.isDigit then parseDigitsAux cs (acc * 10 + (c.toNat - 48)) else none

/-- `u64::from_str` (digits with an optional leading plus sign; overflow is
immaterial here because every caller range-checks the result). -/
def parseU64 (s : String) : Option Nat :=
  match s.data with
  | [] => none
  | '+' :: rest => if rest.isEmpty then none else parseDigitsAux rest 0
  | l => parseDigitsAux l 0

/-- `str::split_whitespace`: maximal runs of non-whitespace characters. -/
def splitWhitespaceAux : List Char → List Char → List (List Char)
  | acc, [] => if acc.isEmpty then [] else [acc.reverse]
  | acc, c :: cs =>
      if c.isWhitespace then
        if acc.isEmpty then splitWhitespaceAux [] cs
        else acc.reverse :: splitWhitespaceAux [] cs
      else splitWhitespaceAux (c :: acc) cs

/-- `str::split_whitespace` for strings. -/
def split_whitespace (s : String) : List String :=
  (splitWhitespaceAux [] s.data).map (fun l => ⟨l⟩)

/-- `ErrorMapper::extract_retry_seconds`: the first whitespace-separated token
parsing to a number in `(0, 3600)`. -/
def extract_retry_seconds (text : String) : Option Nat :=
  (split_whitespace text).findSome? fun part =>
    match parseU64 part with
    | some num => if 0 < num ∧ num < 3600 then some num else none
    | none => none

/-- `ErrorMapper::parse_retry_after`. -/
def errorMapperParseRetryAfter (body : Option String) : Option Duration :=
  match body with
  | some b =>
      if containsSubstr b "retry_after" || containsSubstr b "retry-after" then
        (extract_retry_seconds b).map Duration.from_secs
      else none
  | none => none

/-- `ErrorMapper::from_status_code`. -/
def from_status_code (status : Nat) (body : Option String) : ProviderError :=
  if status = 401 ∨ status = 403 then .AuthenticationError
  else if status = 429 then .RateLimit (errorMapperParseRetryAfter body)
  else if status = 400 then .InvalidRequest (body.getD "Bad request")
  else if status = 404 then .ModelNotAvailable (body.getD "unknown")
  else if status = 408 ∨ status = 504 then .Timeout
  else if 500 ≤ status ∧ status ≤ 599 then
    .ServerError status (body.getD "Internal server error")
  else .Custom (toString status) (body.getD "Unknown error")

/-- `protocol::types::CompletionUsage`. -/
structure CompletionUsage where
  prompt_tokens : Nat
  completion_tokens : Nat
  total_tokens : Nat
deriving DecidableEq, Repr

/-- `protocol::types::ResponseChoice`. -/
structure ResponseChoice where
  index : Nat
  message : Message
  finish_reason : Option String := none
  logprobs : Option Json := none
deriving Repr

/-- `protocol::types::ChatResponse`. -/
structure ChatResponse where
  id : String
  object : String
  created : Int
  model : String
  choices : List ResponseChoice
  usage : Option CompletionUsage := none
  system_fingerprint : Option String := none
  metadata : List (String × Json) := []
deriving Repr

/-- `providers::routing::RoutingResult`. -/
structure RoutingResult where
  response : Option ChatResponse
  transform_result : Option TransformResult
  provider_used : String
  used_fallback : Bool
  attempts : Nat
  provider_errors : List (String × String)
  metadata : List (String × Json)
deriving Repr

/-- Insert into the provider-error map (`HashMap::insert`). -/
def insertErr (m : List (String × String)) (k v : String) : List (String × String) :=
  if m.any (fun kv => kv.1 == k) then
    m.map (fun kv => if kv.1 == k then (k, v) else kv)
  else
    m ++ [(k, v)]

/-- Debug rendering of the provider-error map, in list order
(`format!("{:?}", map)`). -/
def providerErrorsDebug (m : List (String × String)) : String :=
  "\x7b" ++ String.intercalate ", "
    (m.map (fun kv => "\"" ++ kv.1 ++ "\": \"" ++ kv.2 ++ "\"")) ++ "\x7d"

/-- `providers::routing::PrimaryWithFallbacks`. -/
structure Router where
  primary : Provider
  fallbacks : List Provider
  track_metadata : Bool
  retry_policy : Option RetryPolicy

/-- `PrimaryWithFallbacks::new`. -/
def Router.new (primary : Provider) (fallbacks : List Provider) : Router where
  primary := primary
  fallbacks := fallbacks
  track_metadata := true
  retry_policy := some RetryPolicy.defaultPolicy

/-- `PrimaryWithFallbacks::execute_with_provider` (single attempt): transform
through the engine, then the MVP's simulated failure scenarios keyed off the
model name. -/
def execute_with_provider (request : ChatRequest) (provider : Provider) :
    Except ProviderError TransformResult :=
  let target :=
    if provider.name == "openai" then openaiProvider
    else if provider.name == "anthropic" then anthropicProvider
    else openaiProvider
  let transform_result := transform_request target request
  if provider.name == "openai" && containsSubstr request.model "timeout-test" then
    .error .Timeout
  else if provider.name == "openai" && containsSubstr request.model "rate-limit-test" then
    .error (.RateLimit (some (Duration.from_secs 5)))
  else if provider.name == "openai" && containsSubstr request.model "server-error-test" then
    .error (.ServerError 503 "Service temporarily unavailable")
  else if containsSubstr request.model "auth-error-test" then
    .error .AuthenticationError
  else .ok transform_result

/-- Loop of `PrimaryWithFallbacks::execute_with_retry`, structurally recursive
on the remaining attempt budget (`max_attempts - attempts`).  `jit k` is the
jitter sample consumed by the delay calculation of retry `k`. -/
def executeRetryLoop (policy : Option RetryPolicy) (jit : Nat → ℚ)
    (request : ChatRequest) (provider : Provider) (max_attempts : Nat) :
    Nat → Nat → Nat → List ProviderError →
      Option TransformResult × List ProviderError × Nat × Nat
  | 0, _, total_delay_ms, error_history => (none, error_history, 1, total_delay_ms)
  | remaining + 1, attempts, total_delay_ms, error_history =>
      match execute_with_provider request provider with
      | .ok result => (some result, error_history, 1, total_delay_ms)
      | .error error =>
          let error_history := error_history ++ [error]
          let attempts := attempts + 1
          match policy with
          | some pol =>
              if remaining > 0 && error.is_retryable then
                let delay := calculate_delay pol (attempts - 1) error (jit (attempts - 1))
                executeRetryLoop policy jit request provider max_attempts
                  remaining attempts (total_delay_ms + delay.millis) error_history
              else (none, error_history, 1, total_delay_ms)
          | none =>
              executeRetryLoop policy jit request provider max_attempts
                remaining attempts total_delay_ms error_history

/-- `PrimaryWithFallbacks::execute_with_retry`: returns
`(result, error history, provider-tried count, cumulative delay)`; the third
component is always 1 (one provider tried). -/
def execute_with_retry (policy : Option RetryPolicy) (jit : Nat → ℚ)
    (request : ChatRequest) (provider : Provider) :
    Option TransformResult × List ProviderError × Nat × Nat :=
  let max_attempts := match policy with | some pol => pol.max_retries + 1 | none => 1
  executeRetryLoop policy jit request provider max_attempts max_attempts 0 0 []

/-- Fallback iteration inside `PrimaryWithFallbacks::route`. -/
def routeFallbacks (policy : Option RetryPolicy) (track_metadata : Bool) (jit : Nat → ℚ)
    (request : ChatRequest) (primary_name : String) :
    RoutingResult → Nat → List Provider → Except ProviderError RoutingResult
  | acc, _, [] =>
      .error (.Custom "ALL_PROVIDERS_FAILED"
        ("All " ++ toString acc.attempts ++ " providers failed. Errors: "
          ++ providerErrorsDebug acc.provider_errors))
  | acc, idx, fallback :: rest =>
      let fallback_name := fallback.name
      let r := execute_with_retry policy jit request fallback
      let acc := { acc with attempts := acc.attempts + r.2.2.1 }
      match r.1 with
      | some transform_result =>
          let acc :=
            { acc with
              transform_result := some transform_result,
              provider_used := fallback_name,
              used_fallback := true }
          if track_metadata then
            let md := insertMeta acc.metadata "primary_provider" (.str primary_name)
            let md := insertMeta md "fallback_provider" (.str fallback_name)
            let md := insertMeta md "fallback_used" (.bool true)
            let md := insertMeta md "fallback_index" (.num idx)
            let md := insertMeta md "attempts" (.num acc.attempts)
            let md := insertMeta md "provider_errors"
              (.obj (acc.provider_errors.map (fun kv => (kv.1, Json.str kv.2))))
            let md :=
              if transform_result.lossy then
                insertMeta (insertMeta md "transformation_lossy" (.bool true))
                  "lossy_reasons" (.arr (transform_result.reasons.map .str))
              else md
            .ok { acc with metadata := md }
          else .ok acc
      | none =>
          let acc :=
            match r.2.1.getLast? with
            | some last_fb_error =>
                { acc with
                  provider_errors :=
                    insertErr acc.provider_errors fallback_name last_fb_error.toDisplay }
            | none => acc
          routeFallbacks policy track_metadata jit request primary_name acc (idx + 1) rest

/-- `PrimaryWithFallbacks::route`. -/
def route (router : Router) (jit : Nat → ℚ) (request : ChatRequest) :
    Except ProviderError RoutingResult :=
  let result : RoutingResult :=
    { response := none, transform_result := none, provider_used := "",
      used_fallback := false, attempts := 0, provider_errors := [], metadata := [] }
  let primary_name := router.primary.name
  let r := execute_with_retry router.retry_policy jit request router.primary
  let result := { result with attempts := result.attempts + r.2.2.1 }
  match r.1 with
  | some transform_result =>
      let result :=
        { result with
          transform_result := some transform_result,
          provider_used := primary_name }
      if router.track_metadata then
        let md := insertMeta result.metadata "primary_provider" (.str primary_name)
        let md := insertMeta md "fallback_used" (.bool false)
        let md := insertMeta md "attempts" (.num r.2.2.1)
        let md := insertMeta md "retry_delay_ms" (.num r.2.2.2)
        let md :=
          if transform_result.lossy then
            insertMeta (insertMeta md "transformation_lossy" (.bool true))
              "lossy_reasons" (.arr (transform_result.reasons.map .str))
          else md
        .ok { result with metadata := md }
      else .ok result
  | none =>
      match r.2.1.getLast? with
      | some last_error =>
          let result :=
            { result with
              provider_errors :=
                insertErr result.provider_errors primary_name last_error.toDisplay }
          if !last_error.is_retryable then .error last_error
          else
            routeFallbacks router.retry_policy router.track_metadata jit request
              primary_name result 0 router.fallbacks
      | none =>
          routeFallbacks router.retry_policy router.track_metadata jit request
            primary_name result 0 router.fallbacks

/-- `config::secrets::SecretString`. -/
structure SecretString where
  value : String
deriving DecidableEq, Repr

/-- `SecretString::new`. -/
def SecretString.new (value : String) : SecretString := ⟨value⟩

/-- `SecretString::expose_secret`. -/
def SecretString.expose_secret (s : SecretString) : String := s.value

/-- Serde serialization of `SecretString` (`#[serde(transparent)]`): the raw
underlying string. -/
def SecretString.serialize (s : SecretString) : Json := .str s.value

/-- Serde deserialization of `SecretString` (`#[serde(transparent)]`): any
JSON string deserializes to the wrapper around it. -/
def SecretString.deserialize : Json → Option SecretString
  | .str v => some ⟨v⟩
  | _ => none

/-- `impl Debug for SecretString`. -/
def SecretString.debugFmt (_ : SecretString) : String := "[REDACTED]"

/-- `impl Display for SecretString`. -/
def SecretString.displayFmt (_ : SecretString) : String := "[REDACTED]"

/-! Derived notions and concrete scenario inputs used by the claim theorems. -/

/-- Number of system-role messages in a list. -/
def countSystemMessages (messages : List Message) : Nat :=
  messages.countP (fun m => m.role == .system)

/-- The text of a message whose content is `Text` (empty for `Parts`). -/
def messageText (m : Message) : String :=
  match m.content with
  | .Text t => t
  | .Parts _ => ""

/-- The lossiness bookkeeping invariant: the flag is set exactly when at least
one reason has been recorded. -/
def TStateInv (s : TState) : Prop := s.lossy = true ↔ s.reasons ≠ []

/-- No-adjacent-same-non-system-role property between two messages. -/
def NoAdjSame (a b : Message) : Prop := a.role = b.role → a.role = .system

/-- The retry policy of spec scenario S8
(`initial=100ms, base=2.0, max_delay=1000ms, jitter=0`). -/
def backoffS8Policy : RetryPolicy where
  max_retries := 3
  initial_delay_ms := 100
  max_delay_ms := 1000
  exponential_base := 2
  jitter_factor := 0
  respect_retry_after := false
  timeout_ms := none

/-- Source capability of spec scenario S3:
`function_calling=true, vision=true`. -/
def s3SourceCapability : Capability :=
  { Capability.defaultCap with
    features := { Capability.defaultCap.features with
                    function_calling := true, vision := true } }

/-- Target capability of spec scenario S3:
`tool_use=true, vision=true, function_calling=false`. -/
def s3TargetCapability : Capability :=
  { Capability.defaultCap with
    features := { Capability.defaultCap.features with
                    tool_use := true, vision := true } }

/-- Request with a system message followed by a non-user message only
(exercises the leftover-system-content path of `merge_system_messages`). -/
def sysThenAssistantRequest : ChatRequest :=
  ChatRequest.new "test-model" [Message.system "S", Message.assistant "A"]

/-- Request of spec scenario S2:
`[user:"A", user:"B", user:"C", assistant:"D"]`. -/
def s2Request : ChatRequest :=
  ChatRequest.new "test-model"
    [Message.user "A", Message.user "B", Message.user "C", Message.assistant "D"]

/-- Router of spec scenario S5: OpenAI primary, Anthropic fallback, retry
policy with `max_retries = 2`. -/
def s5Router : Router where
  primary := openaiProvider
  fallbacks := [anthropicProvider]
  track_metadata := true
  retry_policy := some { RetryPolicy.defaultPolicy with max_retries := 2 }

/-- Request of spec scenario S5: the model name triggers the simulated
timeout on the OpenAI provider. -/
def s5Request : ChatRequest :=
  ChatRequest.new "timeout-test-model" [Message.user "This will timeout"]

/-- The routing outcome of spec scenario S5 (jitter samples are irrelevant:
`Retry-After` handling preempts them for timeouts). -/
def s5Outcome : Except ProviderError RoutingResult :=
  route s5Router (fun _ => 0) s5Request

/-! ## Theorems -/

/-- Claim C10: the secret wrapper serializes the raw underlying string (so
deserialization of the serialization returns the original secret), while both
its Debug and Display renderings are exactly `[REDACTED]` regardless of the
value. -/
theorem secret_roundtrip_and_redaction (s : SecretString) :
    SecretString.deserialize s.serialize = some s
      ∧ s.serialize = Json.str s.value
      ∧ s.debugFmt = "[REDACTED]"
      ∧ s.displayFmt = "[REDACTED]" :=
  ⟨rfl, rfl, rfl, rfl⟩

/-- Claim C6: `is_retryable` is a pure function of the error kind, true
exactly for the rate-limit, timeout, server-error, network and
model-not-available kinds and false exactly for the invalid-request,
authentication and custom kinds, for every payload. -/
theorem is_retryable_kind_table :
    (∀ e : ProviderError,
      e.is_retryable =
        (e.kind == .rateLimit || e.kind == .timeout || e.kind == .serverError
          || e.kind == .network || e.kind == .modelNotAvailable))
    ∧ (∀ e : ProviderError,
      e.is_retryable = false ↔
        (e.kind = .invalidRequest ∨ e.kind = .authentication ∨ e.kind = .custom))
    ∧ (∀ a b : ProviderError, a.kind = b.kind → a.is_retryable = b.is_retryable) := by
  refine ⟨fun e => ?_, fun e => ?_, fun a b h => ?_⟩
  · cases e <;> rfl
  · cases e <;> simp [ProviderError.is_retryable, ProviderError.kind]
  · cases a <;> cases b <;>
      simp_all [ProviderError.kind, ProviderError.is_retryable]

/-- Witness for `is_retryable_kind_table` at concrete errors. -/
theorem is_retryable_kind_table_witness :
    (ProviderError.Timeout).kind = (ProviderError.Timeout).kind
      ∧ (ProviderError.RateLimit none).is_retryable
          = (ProviderError.RateLimit (some (Duration.from_secs 7))).is_retryable :=
  ⟨rfl, is_retryable_kind_table.2.2 (ProviderError.RateLimit none)
          (ProviderError.RateLimit (some (Duration.from_secs 7))) rfl⟩

/-- A prefix occurrence is in particular a substring occurrence. -/
theorem charsContain_of_hasPrefix (pat l : List Char)
    (h : charsHavePrefix pat l = true) : charsContain pat l = true := by
  cases l with
  | nil => simpa [charsContain] using h
  | cons b bs => simp [charsContain, h]

/-- Counterexample to claim C9 as stated: a response with no Content-Type
header is accepted (not rejected), and a response whose content type does not
begin with `application/json` but contains it elsewhere is also accepted. -/
theorem content_type_counterexample :
    validate_content_type none = .ok ()
      ∧ validate_content_type (some "text/plain; application/json") = .ok ()
      ∧ charsHavePrefix "application/json".data (strToLower "text/plain; application/json").data
          = false := by
  refine ⟨rfl, rfl, by decide⟩

/-- Claim C9 (amended): a response whose lowercased Content-Type value begins
with `application/json` is accepted; more generally a response with a present
Content-Type header is accepted iff the lowercased value contains
`application/json` as a substring (otherwise it is rejected with the typed
`INVALID_CONTENT_TYPE` error), and a response without a Content-Type header is
accepted without inspection. -/
theorem content_type_validation :
    (∀ ct : String,
        charsHavePrefix "application/json".data (strToLower ct).data = true →
        validate_content_type (some ct) = .ok ())
    ∧ (∀ ct : String,
        validate_content_type (some ct) = .ok ()
          ↔ containsSubstr (strToLower ct) "application/json" = true)
    ∧ (∀ ct : String,
        containsSubstr (strToLower ct) "application/json" = false →
        validate_content_type (some ct)
          = .error (.Custom "INVALID_CONTENT_TYPE"
              ("Expected application/json, got: " ++ strToLower ct)))
    ∧ validate_content_type none = .ok () := by
  refine ⟨fun ct h => ?_, fun ct => ?_, fun ct h => ?_, rfl⟩
  · have : containsSubstr (strToLower ct) "application/json" = true :=
      charsContain_of_hasPrefix _ _ h
    simp [validate_content_type, this]
  · unfold validate_content_type
    rcases h : containsSubstr (strToLower ct) "application/json" <;> simp [h]
  · simp [validate_content_type, h]

/-- Witness for `content_type_validation` at a concrete header value. -/
theorem content_type_validation_witness :
    charsHavePrefix "application/json".data (strToLower "application/json; charset=utf-8").data
        = true
      ∧ validate_content_type (some "application/json; charset=utf-8") = .ok () :=
  ⟨by decide, content_type_validation.1 "application/json; charset=utf-8" (by decide)⟩

/-! Lossiness bookkeeping invariant, step by step. -/

theorem stepSystemRole_inv (caps : ProviderCapabilities) (s : TState)
    (h : TStateInv s) : TStateInv (stepSystemRole caps s) := by
  unfold stepSystemRole
  split
  · simp [TStateInv]
  · exact h

theorem stepResponseFormat_inv (caps : ProviderCapabilities) (s : TState)
    (h : TStateInv s) : TStateInv (stepResponseFormat caps s) := by
  unfold stepResponseFormat
  split
  · split
    · simp [TStateInv]
    · exact h
  · split
    · simp [TStateInv]
    · exact h
  · exact h
  · exact h

theorem stepTools_inv (caps : ProviderCapabilities) (s : TState)
    (h : TStateInv s) : TStateInv (stepTools caps s) := by
  unfold stepTools
  split
  · simp [TStateInv]
  · exact h

theorem stepStreaming_inv (caps : ProviderCapabilities) (s : TState)
    (h : TStateInv s) : TStateInv (stepStreaming caps s) := by
  unfold stepStreaming
  split
  · simp [TStateInv]
  · exact h

theorem stepTemperature_inv (caps : ProviderCapabilities) (s : TState)
    (h : TStateInv s) : TStateInv (stepTemperature caps s) := by
  unfold stepTemperature
  split
  · simp [TStateInv]
  · exact h

theorem stepTopP_inv (caps : ProviderCapabilities) (s : TState)
    (h : TStateInv s) : TStateInv (stepTopP caps s) := by
  unfold stepTopP
  split
  · simp [TStateInv]
  · exact h

theorem stepConsecutive_inv (caps : ProviderCapabilities) (s : TState)
    (h : TStateInv s) : TStateInv (stepConsecutive caps s) := by
  unfold stepConsecutive
  split
  · simp [TStateInv]
  · exact h

theorem stepTokenLimit_inv (caps : ProviderCapabilities) (s : TState)
    (h : TStateInv s) : TStateInv (stepTokenLimit caps s) := by
  unfold stepTokenLimit
  split
  · simp [TStateInv]
  · exact h

/-- Claim C3: for every request and every target, the transformation engine's
result has the lossy flag set if and only if the list of lossiness reasons is
non-empty. -/
theorem transform_lossy_iff_reasons (target : Provider) (request : ChatRequest) :
    (transform_request target request).lossy = true
      ↔ (transform_request target request).reasons ≠ [] := by
  have h0 : TStateInv ⟨request, false, []⟩ := by simp [TStateInv]
  have h1 := stepSystemRole_inv target.capabilities ⟨request, false, []⟩ h0
  have h2 := stepResponseFormat_inv target.capabilities _ h1
  have h3 := stepTools_inv target.capabilities _ h2
  have h4 := stepStreaming_inv target.capabilities _ h3
  have h5 := stepTemperature_inv target.capabilities _ h4
  have h6 := stepTopP_inv target.capabilities _ h5
  have h7 := stepConsecutive_inv target.capabilities _ h6
  have h8 := stepTokenLimit_inv target.capabilities _ h7
  simpa [transform_request, TStateInv] using h8

/-- Counterexample to claim C7 as stated: the executor's status mapping
`map_http_error` sends 403 to an invalid-request error, not to an
authentication error (only the retry module's `from_status_code` maps 403 to
authentication). -/
theorem http_403_counterexample :
    map_http_error 403 none (some "Forbidden") "rid"
        = .InvalidRequest "Forbidden [request_id: rid]"
      ∧ (map_http_error 403 none (some "Forbidden") "rid").kind
          ≠ ErrorKind.authentication
      ∧ from_status_code 403 none = .AuthenticationError :=
  ⟨rfl, by decide, rfl⟩

/-- Claim C7 (amended): the status-code classification of both error mappers.
`map_http_error` (used by the HTTP executor) maps 401 to authentication,
429 to rate-limit carrying the retry-after seconds parsed from the error
body, 400 to invalid-request, 404 to model-not-available with the model name
best-effort parsed from the error message, 408/504 to timeout, remaining 5xx
to server-error, every remaining 4xx — including 403 — to invalid-request,
and all remaining codes to custom.  The retry module's `from_status_code`
maps 401 and 403 to authentication, 429 to rate-limit with the retry-after
parsed from the body, 400 to invalid-request, 404 to model-not-available with
the raw body as model name, 408/504 to timeout, remaining 5xx to
server-error, and everything else to custom. -/
theorem http_status_mapping (status : Nat) (details : Option ErrorDetails)
    (body : Option String) (request_id : String) :
    ((status = 401 →
        map_http_error status details body request_id = .AuthenticationError)
     ∧ (status = 429 →
        map_http_error status details body request_id
          = .RateLimit ((details.bind (fun d => d.retry_after_seconds)).map
              Duration.from_secs))
     ∧ (status = 400 →
        (map_http_error status details body request_id).kind = .invalidRequest)
     ∧ (status = 404 →
        (map_http_error status details body request_id).kind = .modelNotAvailable)
     ∧ (status = 408 ∨ status = 504 →
        map_http_error status details body request_id = .Timeout)
     ∧ (500 ≤ status → status ≤ 599 → status ≠ 504 →
        (map_http_error status details body request_id).kind = .serverError)
     ∧ (400 ≤ status → status ≤ 499 → status ≠ 401 → status ≠ 429 →
        status ≠ 404 → status ≠ 408 →
        (map_http_error status details body request_id).kind = .invalidRequest)
     ∧ (status < 400 ∨ 599 < status →
        (map_http_error status details body request_id).kind = .custom))
    ∧ ((status = 401 ∨ status = 403 →
        from_status_code status body = .AuthenticationError)
     ∧ (status = 429 →
        from_status_code status body
          = .RateLimit (errorMapperParseRetryAfter body))
     ∧ (status = 400 →
        from_status_code status body = .InvalidRequest (body.getD "Bad request"))
     ∧ (status = 404 →
        from_status_code status body = .ModelNotAvailable (body.getD "unknown"))
     ∧ (status = 408 ∨ status = 504 → from_status_code status body = .Timeout)
     ∧ (500 ≤ status → status ≤ 599 → status ≠ 504 →
        (from_status_code status body).kind = .serverError)
     ∧ (status ≠ 401 → status ≠ 403 → status ≠ 429 → status ≠ 400 →
        status ≠ 404 → status ≠ 408 → status ≠ 504 →
        ¬(500 ≤ status ∧ status ≤ 599) →
        (from_status_code status body).kind = .custom)) := by
  constructor
  · refine ⟨?_, ?_, ?_, ?_, ?_, ?_, ?_, ?_⟩
    · intro h; subst h; simp [map_http_error]
    · intro h; subst h; simp [map_http_error]
    · intro h; subst h; simp [map_http_error, ProviderError.kind]
    · intro h; subst h; simp [map_http_error, ProviderError.kind]
    · rintro (h | h) <;> subst h <;> simp [map_http_error]
    · intro h1 h2 h3
      simp only [map_http_error]
      rw [if_neg (show ¬(status = 401) by omega),
          if_neg (show ¬(status = 429) by omega),
          if_neg (show ¬(status = 400) by omega),
          if_neg (show ¬(status = 404) by omega),
          if_neg (show ¬(status = 408 ∨ status = 504) by omega),
          if_pos (show 500 ≤ status ∧ status ≤ 599 by omega)]
      rfl
    · intro h1 h2 h3 h4 h5 h6
      by_cases h400 : status = 400
      · subst h400; simp [map_http_error, ProviderError.kind]
      · simp only [map_http_error]
        rw [if_neg h3, if_neg h4, if_neg h400, if_neg h5,
            if_neg (show ¬(status = 408 ∨ status = 504) by omega),
            if_neg (show ¬(500 ≤ status ∧ status ≤ 599) by omega),
            if_pos (show 400 ≤ status ∧ status ≤ 499 by omega)]
        rfl
    · intro h
      simp only [map_http_error]
      rw [if_neg (show ¬(status = 401) by omega),
          if_neg (show ¬(status = 429) by omega),
          if_neg (show ¬(status = 400) by omega),
          if_neg (show ¬(status = 404) by omega),
          if_neg (show ¬(status = 408 ∨ status = 504) by omega),
          if_neg (show ¬(500 ≤ status ∧ status ≤ 599) by omega),
          if_neg (show ¬(400 ≤ status ∧ status ≤ 499) by omega)]
      rfl
  · refine ⟨?_, ?_, ?_, ?_, ?_, ?_, ?_⟩
    · rintro (h | h) <;> subst h <;> simp [from_status_code]
    · intro h; subst h; simp [from_status_code]
    · intro h; subst h; simp [from_status_code]
    · intro h; subst h; simp [from_status_code]
    · rintro (h | h) <;> subst h <;> simp [from_status_code]
    · intro h1 h2 h3
      simp only [from_status_code]
      rw [if_neg (show ¬(status = 401 ∨ status = 403) by omega),
          if_neg (show ¬(status = 429) by omega),
          if_neg (show ¬(status = 400) by omega),
          if_neg (show ¬(status = 404) by omega),
          if_neg (show ¬(status = 408 ∨ status = 504) by omega),
          if_pos (show 500 ≤ status ∧ status ≤ 599 by omega)]
      rfl
    · intro h1 h2 h3 h4 h5 h6 h7 h8
      simp only [from_status_code]
      rw [if_neg (show ¬(status = 401 ∨ status = 403) by omega),
          if_neg h3, if_neg h4, if_neg h5,
          if_neg (show ¬(status = 408 ∨ status = 504) by omega),
          if_neg h8]
      rfl

/-- Witness for `http_status_mapping` at concrete status codes. -/
theorem http_status_mapping_witness :
    (500 : Nat) ≤ 503 ∧ (503 : Nat) ≤ 599 ∧ (503 : Nat) ≠ 504
      ∧ (map_http_error 503 none (some "overloaded") "rid").kind
          = ErrorKind.serverError :=
  ⟨by decide, by decide, by decide,
    (http_status_mapping 503 none (some "overloaded") "rid").1.2.2.2.2.2.1
      (by decide) (by decide) (by decide)⟩

/-- The f64→u64 cast equals the floor (taken to `Nat`). -/
theorem f64_as_u64_eq_floor (q : ℚ) : f64_as_u64 q = (⌊q⌋).toNat := by
  rw [f64_as_u64, Rat.floor_def]

/-- The f64→u64 cast is monotone. -/
theorem f64_as_u64_mono {q r : ℚ} (h : q ≤ r) : f64_as_u64 q ≤ f64_as_u64 r := by
  rw [f64_as_u64_eq_floor, f64_as_u64_eq_floor]
  exact Int.toNat_le_toNat (Int.floor_le_floor h)

/-- Claim C5: when the jitter factor is zero and the Retry-After shortcut does
not apply (either `respect_retry_after` is off or the error carries no
retry-after delay), the computed retry delay for attempt `k` is exactly
`min(initial_delay * base^k, max_delay)` milliseconds; it is non-decreasing in
`k` whenever the exponential base is at least 1; and for the S8 policy
(initial=100ms, base=2.0, max_delay=1000ms, jitter=0) the delays for attempts
0..5 are exactly [100, 200, 400, 800, 1000, 1000] ms. -/
theorem retry_backoff_formula (p : RetryPolicy) (e : ProviderError) (j : ℚ)
    (hjit : p.jitter_factor = 0)
    (hra : p.respect_retry_after = false ∨ e.retry_delay = none) :
    (∀ k, (calculate_delay p k e j).millis
        = f64_as_u64 (min ((p.initial_delay_ms : ℚ) * p.exponential_base ^ k)
            (p.max_delay_ms : ℚ)))
    ∧ (1 ≤ p.exponential_base → ∀ k₁ k₂, k₁ ≤ k₂ →
        (calculate_delay p k₁ e j).millis ≤ (calculate_delay p k₂ e j).millis)
    ∧ ((calculate_delay backoffS8Policy 0 ProviderError.Timeout 0).millis = 100
      ∧ (calculate_delay backoffS8Policy 1 ProviderError.Timeout 0).millis = 200
      ∧ (calculate_delay backoffS8Policy 2 ProviderError.Timeout 0).millis = 400
      ∧ (calculate_delay backoffS8Policy 3 ProviderError.Timeout 0).millis = 800
      ∧ (calculate_delay backoffS8Policy 4 ProviderError.Timeout 0).millis = 1000
      ∧ (calculate_delay backoffS8Policy 5 ProviderError.Timeout 0).millis = 1000) := by
  have hmain : ∀ k, (calculate_delay p k e j).millis
      = f64_as_u64 (min ((p.initial_delay_ms : ℚ) * p.exponential_base ^ k)
          (p.max_delay_ms : ℚ)) := by
    intro k
    rcases hra with h | h
    · simp [calculate_delay, h, hjit]
    · rcases hr : p.respect_retry_after <;> simp [calculate_delay, h, hr, hjit]
  refine ⟨hmain, fun hb k₁ k₂ hk => ?_, ?_⟩
  · rw [hmain k₁, hmain k₂]
    apply f64_as_u64_mono
    apply min_le_min _ le_rfl
    exact mul_le_mul_of_nonneg_left (pow_le_pow_right₀ hb hk) (by positivity)
  · refine ⟨?_, ?_, ?_, ?_, ?_, ?_⟩ <;>
      norm_num [calculate_delay, f64_as_u64, backoffS8Policy,
        ProviderError.retry_delay] <;> decide

/-- Witness for `retry_backoff_formula` at the S8 policy, attempt 3. -/
theorem retry_backoff_formula_witness :
    backoffS8Policy.jitter_factor = 0
      ∧ backoffS8Policy.respect_retry_after = false
      ∧ (calculate_delay backoffS8Policy 3 ProviderError.Timeout 0).millis
          = f64_as_u64 (min ((backoffS8Policy.initial_delay_ms : ℚ)
              * backoffS8Policy.exponential_base ^ 3)
              (backoffS8Policy.max_delay_ms : ℚ)) :=
  ⟨rfl, rfl,
    (retry_backoff_formula backoffS8Policy ProviderError.Timeout 0 rfl (Or.inl rfl)).1 3⟩

/-! Shape lemmas for the capability comparator. -/

theorem fst_ite {α β : Type} (c : Prop) [Decidable c] (a b : α × β) :
    (if c then a else b).1 = if c then a.1 else b.1 := by
  split <;> rfl

theorem snd_ite {α β : Type} (c : Prop) [Decidable c] (a b : α × β) :
    (if c then a else b).2 = if c then a.2 else b.2 := by
  split <;> rfl

theorem mem_ite_singleton {α : Type} {c : Prop} [Decidable c] {a x : α} :
    x ∈ (if c then [a] else ([] : List α)) ↔ c ∧ x = a := by
  split <;> simp_all

/-- Every modality debug rendering has at least four characters. -/
theorem modality_debugStr_length (m : Modality) : 4 ≤ m.debugStr.length := by
  cases m with
  | Custom s =>
      have h1 : ("Custom(\"" : String).length = 8 := by decide
      have h2 : ("\")" : String).length = 2 := by decide
      simp [Modality.debugStr, String.length_append, h1, h2]
      omega
  | _ => decide

theorem input_modality_ne_tool_use (m : Modality) :
    ("input_" ++ m.debugStr) ≠ "tool_use" := by
  intro h
  have hlen := congrArg String.length h
  rw [String.length_append] at hlen
  have h6 : ("input_" : String).length = 6 := by decide
  have h8 : ("tool_use" : String).length = 8 := by decide
  have := modality_debugStr_length m
  omega

theorem output_modality_ne_tool_use (m : Modality) :
    ("output_" ++ m.debugStr) ≠ "tool_use" := by
  intro h
  have hlen := congrArg String.length h
  rw [String.length_append] at hlen
  have h7 : ("output_" : String).length = 7 := by decide
  have h8 : ("tool_use" : String).length = 8 := by decide
  have := modality_debugStr_length m
  omega

theorem compare_modalities_missing_shape (s t : Capability) :
    ∀ x ∈ (compare_modalities s t).1,
      (∃ m : Modality, x = "input_" ++ m.debugStr)
        ∨ (∃ m : Modality, x = "output_" ++ m.debugStr) := by
  intro x hx
  unfold compare_modalities at hx
  simp only [List.mem_append, List.mem_map, List.mem_filter] at hx
  rcases hx with ⟨m, _, rfl⟩ | ⟨m, _, rfl⟩
  · exact Or.inl ⟨m, rfl⟩
  · exact Or.inr ⟨m, rfl⟩

theorem compare_modalities_loss_shape (s t : Capability) :
    ∀ x ∈ (compare_modalities s t).2.1,
      ∃ d, x = LossinessType.MissingModality d := by
  intro x hx
  unfold compare_modalities at hx
  simp only [List.mem_append, List.mem_map, List.mem_filter] at hx
  rcases hx with ⟨m, _, rfl⟩ | ⟨m, _, rfl⟩ <;> exact ⟨_, rfl⟩

theorem compare_parameters_loss_shape (s t : Capability) :
    ∀ x ∈ (compare_parameters s t).2.1,
      ∃ p, x = LossinessType.ConstrainedParameter p := by
  intro x hx
  unfold compare_parameters at hx
  rcases hms : s.parameters.max_tokens.max with _ | sm <;>
    rcases hmt : t.parameters.max_tokens.max with _ | tm <;>
    simp only [hms, hmt, snd_ite, fst_ite, List.mem_append, mem_ite_singleton,
      List.not_mem_nil, or_false, false_or] at hx <;>
    first
      | exact ⟨_, hx.2⟩
      | (rcases hx with ⟨_, rfl⟩ | ⟨_, rfl⟩
         · exact ⟨_, rfl⟩
         · exact ⟨_, rfl⟩)

theorem compare_constraints_loss_shape (s t : Capability) :
    ∀ x ∈ (compare_constraints s t).2.1,
      x = LossinessType.TokenLimitExceeded ∨ x = LossinessType.RateLimitReduced := by
  intro x hx
  unfold compare_constraints at hx
  rcases hc : s.constraints.tokens.max_context_window with _ | sc <;>
    rcases ht : t.constraints.tokens.max_context_window with _ | tc <;>
    rcases hr : s.constraints.rate_limits.requests_per_minute with _ | sr <;>
    rcases hq : t.constraints.rate_limits.requests_per_minute with _ | tr <;>
    simp only [hc, ht, hr, hq, snd_ite, fst_ite, List.mem_append, mem_ite_singleton] at hx <;>
    tauto

theorem compare_roles_missing_shape (s t : Capability) :
    ∀ x ∈ (compare_roles s t).1, x = "system_role" ∨ x = "function_role" := by
  intro x hx
  unfold compare_roles at hx
  simp only [snd_ite, fst_ite, List.mem_append, mem_ite_singleton] at hx
  tauto

theorem compare_roles_loss_shape (s t : Capability) :
    ∀ x ∈ (compare_roles s t).2.1, ∃ r, x = LossinessType.MissingRole r := by
  intro x hx
  unfold compare_roles at hx
  simp only [snd_ite, fst_ite, List.mem_append, mem_ite_singleton] at hx
  rcases hx with ⟨_, rfl⟩ | ⟨_, rfl⟩ <;> exact ⟨_, rfl⟩

/-- Counterexample to claim C2 as stated (spec scenario S3): for source
`{function_calling, vision}` and target `{tool_use, vision}`, the comparator
does report `function_calling` as missing and records lossiness on the
function/tool axis; the equivalence exception only runs in the `tool_use`
direction. -/
theorem s3_function_calling_reported :
    "function_calling"
        ∈ (CapabilityComparison.compare s3SourceCapability s3TargetCapability).missing_capabilities
      ∧ LossinessType.MissingFeature "function_calling"
          ∈ (CapabilityComparison.compare s3SourceCapability
              s3TargetCapability).lossiness_report.lossiness_types
      ∧ (CapabilityComparison.compare s3SourceCapability
          s3TargetCapability).lossiness_report.is_lossy = true := by
  refine ⟨by decide, by decide, rfl⟩

/-- Claim C2 (amended): the function/tool equivalence is one-directional.
When the source has `tool_use`, the target lacks `tool_use` but has
`function_calling`, the comparator does not report the `tool_use` axis as
missing and records no lossiness for it.  In the opposite direction, a source
with `function_calling` compared against a target without `function_calling`
is reported missing on that axis — even if the target has `tool_use` — and
the comparison is lossy. -/
theorem tool_function_equivalence_one_directional :
    (∀ s t : Capability, s.features.tool_use = true → t.features.tool_use = false →
      t.features.function_calling = true →
      "tool_use" ∉ (CapabilityComparison.compare s t).missing_capabilities
        ∧ LossinessType.MissingFeature "tool_use"
            ∉ (CapabilityComparison.compare s t).lossiness_report.lossiness_types)
    ∧ (∀ s t : Capability, s.features.function_calling = true →
      t.features.function_calling = false →
      "function_calling" ∈ (CapabilityComparison.compare s t).missing_capabilities
        ∧ LossinessType.MissingFeature "function_calling"
            ∈ (CapabilityComparison.compare s t).lossiness_report.lossiness_types
        ∧ (CapabilityComparison.compare s t).lossiness_report.is_lossy = true) := by
  constructor
  · intro s t hsu htu hfc
    constructor
    · intro hx
      unfold CapabilityComparison.compare at hx
      simp only [List.mem_append] at hx
      rcases hx with (hx | hx) | hx
      · unfold compare_features at hx
        simp +decide [fst_ite, List.mem_append, mem_ite_singleton, htu, hfc] at hx
      · rcases compare_modalities_missing_shape s t _ hx with ⟨m, hm⟩ | ⟨m, hm⟩
        · exact input_modality_ne_tool_use m hm.symm
        · exact output_modality_ne_tool_use m hm.symm
      · rcases compare_roles_missing_shape s t _ hx with h | h <;> simp at h
    · intro hx
      unfold CapabilityComparison.compare at hx
      simp only [List.mem_append] at hx
      rcases hx with (((hx | hx) | hx) | hx) | hx
      · unfold compare_features at hx
        simp +decide [snd_ite, fst_ite, List.mem_append, mem_ite_singleton,
          htu, hfc] at hx
      · rcases compare_modalities_loss_shape s t _ hx with ⟨d, hd⟩
        simp at hd
      · rcases compare_parameters_loss_shape s t _ hx with ⟨p, hp⟩
        simp at hp
      · rcases compare_roles_loss_shape s t _ hx with ⟨r, hr⟩
        simp at hr
      · rcases compare_constraints_loss_shape s t _ hx with h | h <;> simp at h
  · intro s t hsf htf
    have hmem : "function_calling" ∈ (compare_features s t).1 := by
      unfold compare_features
      simp [fst_ite, List.mem_append, mem_ite_singleton, hsf, htf]
    have hloss : LossinessType.MissingFeature "function_calling"
        ∈ (compare_features s t).2.1 := by
      unfold compare_features
      simp [snd_ite, fst_ite, List.mem_append, mem_ite_singleton, hsf, htf]
    refine ⟨?_, ?_, ?_⟩
    · unfold CapabilityComparison.compare
      simp only [List.mem_append]
      exact Or.inl (Or.inl hmem)
    · unfold CapabilityComparison.compare
      simp only [List.mem_append]
      exact Or.inl (Or.inl (Or.inl (Or.inl hloss)))
    · unfold CapabilityComparison.compare
      simp only [Bool.not_eq_true', Bool.not_eq_false]
      rw [List.isEmpty_eq_false_iff_exists_mem]
      exact ⟨_, by simp only [List.mem_append]; exact Or.inl (Or.inl (Or.inl (Or.inl hloss)))⟩

/-- Witness for `tool_function_equivalence_one_directional` at the S3
capabilities (swapped direction for the first conjunct). -/
theorem tool_function_equivalence_witness :
    "tool_use" ∉ (CapabilityComparison.compare s3TargetCapability
        s3SourceCapability).missing_capabilities
      ∧ "function_calling" ∈ (CapabilityComparison.compare s3SourceCapability
          s3TargetCapability).missing_capabilities :=
  ⟨(tool_function_equivalence_one_directional.1 s3TargetCapability s3SourceCapability
      rfl rfl rfl).1,
   (tool_function_equivalence_one_directional.2 s3SourceCapability s3TargetCapability
      rfl rfl).1⟩

/-! Structural lemmas about the system-role merge. -/

/-- Merged output never contains a system-role message. -/
theorem mergeSystemGo_no_system (l : List Message) :
    ∀ (acc : String), ∀ m ∈ (mergeSystemGo l acc).1, m.role ≠ .system := by
  induction l with
  | nil =>
      intro acc m hm
      unfold mergeSystemGo at hm
      split at hm
      · simp at hm
      · simp at hm
        subst hm
        simp [syntheticUserMessage]
  | cons x xs ih =>
      intro acc m hm
      obtain ⟨role, content, nm, fc, tc, tci, md⟩ := x
      cases role with
      | system =>
          cases content with
          | Text t =>
              simp only [mergeSystemGo] at hm
              exact ih _ m hm
          | Parts ps =>
              simp only [mergeSystemGo] at hm
              exact ih _ m hm
      | user =>
          simp only [mergeSystemGo] at hm
          split at hm
          · rcases List.mem_cons.mp hm with rfl | hm'
            · simp
            · exact ih _ m hm'
          · cases content with
            | Text t =>
                rcases List.mem_cons.mp hm with rfl | hm'
                · simp
                · exact ih _ m hm'
            | Parts ps =>
                rcases List.mem_cons.mp hm with rfl | hm'
                · simp
                · exact ih _ m hm'
      | assistant =>
          simp only [mergeSystemGo] at hm
          rcases List.mem_cons.mp hm with rfl | hm'
          · simp
          · exact ih _ m hm'
      | function =>
          simp only [mergeSystemGo] at hm
          rcases List.mem_cons.mp hm with rfl | hm'
          · simp
          · exact ih _ m hm'
      | tool =>
          simp only [mergeSystemGo] at hm
          rcases List.mem_cons.mp hm with rfl | hm'
          · simp
          · exact ih _ m hm'

/-- A leading block of text system messages only accumulates into the system
content. -/
theorem mergeSystemGo_sys_accum (ms : List Message)
    (h : ∀ m ∈ ms, m.role = .system ∧ ∃ t, m.content = .Text t) :
    ∀ (l : List Message) (acc : String),
      mergeSystemGo (ms ++ l) acc
        = mergeSystemGo l
            (ms.foldl (fun a mm => appendSystemText a (messageText mm)) acc) := by
  induction ms with
  | nil => intro l acc; rfl
  | cons x xs ih =>
      intro l acc
      obtain ⟨hrole, t, hcont⟩ := h x (List.mem_cons_self x xs)
      obtain ⟨role, content, nm, fc, tc, tci, md⟩ := x
      simp only at hrole hcont
      subst hrole
      subst hcont
      simp only [List.cons_append, mergeSystemGo, List.foldl_cons, messageText]
      exact ih (fun m hm => h m (List.mem_cons_of_mem _ hm)) l _

/-- A user text message absorbs the pending system content; processing
continues with an empty accumulator. -/
theorem mergeSystemGo_user_absorb (m : Message) (u : String) (rest : List Message)
    (hrole : m.role = .user) (hcont : m.content = .Text u) (acc : String)
    (hacc : acc.isEmpty = false) :
    mergeSystemGo (m :: rest) acc
      = ({ m with content := .Text (acc ++ "\n\n" ++ u) } :: (mergeSystemGo rest "").1,
         (mergeSystemGo rest "").2) := by
  obtain ⟨role, content, nm, fc, tc, tci, md⟩ := m
  simp only at hrole hcont
  subst hrole
  subst hcont
  simp [mergeSystemGo, hacc]

/-- When no user (and no system) message remains, pending system content
becomes a synthesized user message appended at the very end. -/
theorem mergeSystemGo_trailing (l : List Message)
    (h : ∀ m ∈ l, m.role ≠ .user ∧ m.role ≠ .system) :
    ∀ acc : String, acc.isEmpty = false →
      mergeSystemGo l acc = (l ++ [syntheticUserMessage acc], []) := by
  induction l with
  | nil => intro acc hacc; simp [mergeSystemGo, hacc]
  | cons x xs ih =>
      intro acc hacc
      obtain ⟨hu, hs⟩ := h x (List.mem_cons_self x xs)
      have hrest := fun m hm => h m (List.mem_cons_of_mem _ hm)
      obtain ⟨role, content, nm, fc, tc, tci, md⟩ := x
      cases role with
      | system => simp at hs
      | user => simp at hu
      | assistant =>
          simp only [mergeSystemGo, List.cons_append]
          rw [ih hrest acc hacc]
      | function =>
          simp only [mergeSystemGo, List.cons_append]
          rw [ih hrest acc hacc]
      | tool =>
          simp only [mergeSystemGo, List.cons_append]
          rw [ih hrest acc hacc]

/-! Message-list behavior of the individual transformation steps. -/

theorem stepResponseFormat_messages (caps : ProviderCapabilities) (s : TState) :
    (stepResponseFormat caps s).req.messages = s.req.messages := by
  unfold stepResponseFormat
  split <;> first | rfl | (split <;> rfl)

theorem stepTools_messages (caps : ProviderCapabilities) (s : TState) :
    (stepTools caps s).req.messages = s.req.messages := by
  unfold stepTools; split <;> rfl

theorem stepStreaming_messages (caps : ProviderCapabilities) (s : TState) :
    (stepStreaming caps s).req.messages = s.req.messages := by
  unfold stepStreaming; split <;> rfl

theorem stepTemperature_messages (caps : ProviderCapabilities) (s : TState) :
    (stepTemperature caps s).req.messages = s.req.messages := by
  unfold stepTemperature; split <;> rfl

theorem stepTopP_messages (caps : ProviderCapabilities) (s : TState) :
    (stepTopP caps s).req.messages = s.req.messages := by
  unfold stepTopP; split <;> rfl

theorem stepTokenLimit_messages (caps : ProviderCapabilities) (s : TState) :
    (stepTokenLimit caps s).req.messages = s.req.messages := by
  unfold stepTokenLimit; split <;> rfl

/-- After the system-role step against a target without system support, no
system message remains. -/
theorem stepSystemRole_no_system (caps : ProviderCapabilities) (s : TState)
    (hc : caps.supports_system_role = false) :
    ∀ m ∈ (stepSystemRole caps s).req.messages, m.role ≠ .system := by
  unfold stepSystemRole
  split
  · intro m hm
    exact mergeSystemGo_no_system _ _ m hm
  · next hcond =>
    intro m hm
    have hsys : hasSystemMessage s.req = false := by
      rcases hh : hasSystemMessage s.req
      · rfl
      · rw [hc, hh] at hcond; simp at hcond
    have := (List.any_eq_false).mp hsys m hm
    simpa using this

/-- Every role in the consecutive-merge output already occurs in the group or
in the remaining input. -/
theorem mergeConsecGo_roles (l : List Message) :
    ∀ (g : Message), ∀ m ∈ (mergeConsecGo g l).1,
      m.role = g.role ∨ ∃ m' ∈ l, m.role = m'.role := by
  induction l with
  | nil =>
      intro g m hm
      simp only [mergeConsecGo, List.mem_singleton] at hm
      subst hm
      exact Or.inl rfl
  | cons x xs ih =>
      intro g m hm
      unfold mergeConsecGo at hm
      split at hm
      · rcases ih _ m hm with h | ⟨m', hm', h⟩
        · exact Or.inl h
        · exact Or.inr ⟨m', List.mem_cons_of_mem _ hm', h⟩
      · rcases List.mem_cons.mp hm with rfl | hm'
        · exact Or.inl rfl
        · rcases ih _ m hm' with h | ⟨m', hmm, h⟩
          · exact Or.inr ⟨x, List.mem_cons_self x xs, h⟩
          · exact Or.inr ⟨m', List.mem_cons_of_mem _ hmm, h⟩

/-- The consecutive-merge step cannot introduce a system message. -/
theorem stepConsecutive_no_system (caps : ProviderCapabilities) (s : TState)
    (h : ∀ m ∈ s.req.messages, m.role ≠ .system) :
    ∀ m ∈ (stepConsecutive caps s).req.messages, m.role ≠ .system := by
  unfold stepConsecutive
  split
  · intro m hm
    unfold merge_consecutive_same_role at hm
    rcases hmsgs : s.req.messages with _ | ⟨x, xs⟩
    · rw [hmsgs] at hm; simp at hm
    · rw [hmsgs] at hm
      rcases mergeConsecGo_roles xs x m hm with hr | ⟨m', hm', hr⟩
      · rw [hr]; exact h x (by rw [hmsgs]; exact List.mem_cons_self x xs)
      · rw [hr]; exact h m' (by rw [hmsgs]; exact List.mem_cons_of_mem _ hm')
  · exact h

/-- If the input has no consecutive same-role pair, it already satisfies the
adjacency property. -/
theorem chain_of_not_consecutive :
    ∀ l : List Message, has_consecutive_same_role l = false →
      List.Chain' NoAdjSame l := by
  intro l
  induction l with
  | nil => intro _; simp
  | cons x xs ih =>
      cases xs with
      | nil => intro _; simp
      | cons y ys =>
          intro h
          unfold has_consecutive_same_role at h
          simp only [Bool.or_eq_false_iff, Bool.and_eq_false_iff] at h
          rw [List.chain'_cons]
          refine ⟨?_, ih h.2⟩
          intro heq
          rcases h.1 with h1 | h1
          · simp [heq] at h1
          · simp at h1
            rw [heq, h1]

/-- The consecutive merge yields a chain with no adjacent equal non-system
roles, and its first message keeps the group's role. -/
theorem mergeConsecGo_chain (l : List Message) :
    ∀ g : Message,
      List.Chain' NoAdjSame (mergeConsecGo g l).1
        ∧ ((mergeConsecGo g l).1.head?.map (fun m => m.role)) = some g.role := by
  induction l with
  | nil =>
      intro g
      constructor
      · simp [mergeConsecGo]
      · simp [mergeConsecGo]
  | cons x xs ih =>
      intro g
      unfold mergeConsecGo
      split
      · next hcond =>
        have hrec := ih { g with content := (mergeContentPair g.content x.content).1 }
        exact ⟨hrec.1, hrec.2⟩
      · next hcond =>
        have hrec := ih x
        constructor
        · rw [List.chain'_cons']
          refine ⟨?_, hrec.1⟩
          intro b hb
          have hhead : (mergeConsecGo x xs).1.head? = some b := hb
          have hbrole : b.role = x.role := by
            have := hrec.2
            rw [hhead] at this
            simpa using this
          intro heq
          by_contra hgs
          exact hcond ⟨by rw [heq, hbrole], by
            intro hxs
            exact hgs (by rw [heq, hbrole, hxs])⟩
        · simp

/-- The consecutive-merge step establishes the adjacency property whenever the
target forbids consecutive same-role messages. -/
theorem stepConsecutive_chain (caps : ProviderCapabilities) (s : TState)
    (hc : caps.supports_consecutive_same_role = false) :
    List.Chain' NoAdjSame (stepConsecutive caps s).req.messages := by
  unfold stepConsecutive
  split
  · show List.Chain' NoAdjSame (merge_consecutive_same_role s.req.messages).1
    unfold merge_consecutive_same_role
    rcases hmsgs : s.req.messages with _ | ⟨x, xs⟩
    · simp
    · exact (mergeConsecGo_chain xs x).1
  · next hcond =>
    have hfalse : has_consecutive_same_role s.req.messages = false := by
      rcases hh : has_consecutive_same_role s.req.messages
      · rfl
      · rw [hc, hh] at hcond; simp at hcond
    exact chain_of_not_consecutive _ hfalse

/-- The Anthropic message conversion is the identity on lists without system
messages. -/
theorem anthropicConvertMessages_id :
    ∀ (msgs : List Message), (∀ m ∈ msgs, m.role ≠ .system) →
      anthropicConvertMessages msgs = msgs := by
  intro msgs
  unfold anthropicConvertMessages
  induction msgs with
  | nil => intro _; rfl
  | cons x xs ih =>
      intro h
      rw [List.map_cons, if_neg (h x (List.mem_cons_self x xs)),
        ih (fun m hm => h m (List.mem_cons_of_mem _ hm))]

/-- The Anthropic request hook only converts messages (its metadata rewrite
does not touch the message list). -/
theorem anthropicTransformRequest_messages (r : ChatRequest) :
    (anthropicTransformRequest r).messages = anthropicConvertMessages r.messages := by
  unfold anthropicTransformRequest
  rcases hmt : r.max_tokens with _ | mt <;> simp [hmt]

/-- Message list of the engine output, expressed through the step pipeline and
the provider hook. -/
theorem transform_request_messages (target : Provider) (r : ChatRequest) :
    (transform_request target r).transformed.messages
      = (target.transformRequestHook
          (stepTokenLimit target.capabilities (stepConsecutive target.capabilities
            (stepTopP target.capabilities (stepTemperature target.capabilities
              (stepStreaming target.capabilities (stepTools target.capabilities
                (stepResponseFormat target.capabilities
                  (stepSystemRole target.capabilities ⟨r, false, []⟩)))))))).req).messages := by
  unfold transform_request
  dsimp only
  split <;> rfl

/-- Merging a run of equal-role text messages concatenates their texts with
blank-line separators into a single message. -/
theorem mergeConsecGo_text_run (role : MessageRole) (hrole : role ≠ .system) :
    ∀ (ts : List String) (g : Message) (t0 : String),
      g.role = role → g.content = .Text t0 →
      mergeConsecGo g (ts.map (fun t => Message.mk' role t))
        = ([{ g with content := .Text (ts.foldl (fun a b => a ++ "\n\n" ++ b) t0) }],
           []) := by
  intro ts
  induction ts with
  | nil =>
      intro g t0 hg hc
      simp only [List.map_nil, mergeConsecGo, List.foldl_nil]
      obtain ⟨grole, gcontent, nm, fc, tc, tci, md⟩ := g
      simp only at hg hc
      subst hg
      subst hc
      rfl
  | cons t ts ih =>
      intro g t0 hg hc
      simp only [List.map_cons, List.foldl_cons]
      show (mergeConsecGo g (Message.mk' role t :: ts.map (fun t => Message.mk' role t)))
        = _
      unfold mergeConsecGo
      rw [if_pos (⟨by rw [hg]; rfl, by simpa [Message.mk'] using hrole⟩ :
            g.role = (Message.mk' role t).role ∧ (Message.mk' role t).role ≠ .system)]
      have hpair : mergeContentPair g.content (Message.mk' role t).content
          = (.Text (t0 ++ "\n\n" ++ t), none) := by
        rw [hc]; rfl
      rw [hpair]
      have hrec := ih { g with content := .Text (t0 ++ "\n\n" ++ t) }
        (t0 ++ "\n\n" ++ t) (by simpa using hg) rfl
      simp [hrec]

/-- Counterexample to claim C1 as stated: for `[system:"S", assistant:"A"]`
against the provider lacking system-role support, the synthesized user message
holding the system text is appended at the END of the message list — after the
assistant message — not emitted before the remaining messages. -/
theorem system_merge_counterexample :
    (transform_request anthropicProvider sysThenAssistantRequest).transformed.messages
        = [Message.assistant "A", Message.user "S"]
      ∧ ((transform_request anthropicProvider
            sysThenAssistantRequest).transformed.messages).map (fun m => m.role)
          = [MessageRole.assistant, MessageRole.user]
      ∧ [MessageRole.assistant, MessageRole.user]
          ≠ [MessageRole.user, MessageRole.assistant] :=
  ⟨rfl, rfl, by decide⟩

/-- Claim C1 (amended): against a target without system-role support (and a
request containing a system message), the engine's output contains zero
system-role messages.  A run of text system messages is concatenated in order
with blank-line separators and prepended, plus a blank line, to the next
following user-role text message; when no user-role message follows, a fresh
user message holding the joined system text is appended at the end of the
message list (after the remaining messages, not before them). -/
theorem system_merge_amended :
    (∀ p ∈ programProviders, p.capabilities.supports_system_role = false →
      ∀ r : ChatRequest, hasSystemMessage r = true →
        countSystemMessages (transform_request p r).transformed.messages = 0)
    ∧ (∀ ms : List Message,
        (∀ m ∈ ms, m.role = .system ∧ ∃ t, m.content = .Text t) →
        ∀ (m : Message) (u : String) (rest : List Message),
          m.role = .user → m.content = .Text u →
          (ms.foldl (fun a mm => appendSystemText a (messageText mm)) "").isEmpty
              = false →
          merge_system_messages (ms ++ m :: rest)
            = ({ m with
                  content := MessageContent.Text
                    ((ms.foldl (fun a mm => appendSystemText a (messageText mm)) "")
                      ++ "\n\n" ++ u) }
                :: (merge_system_messages rest).1,
               (merge_system_messages rest).2))
    ∧ (∀ ms : List Message,
        (∀ m ∈ ms, m.role = .system ∧ ∃ t, m.content = .Text t) →
        ∀ rest : List Message, (∀ m ∈ rest, m.role ≠ .user ∧ m.role ≠ .system) →
          (ms.foldl (fun a mm => appendSystemText a (messageText mm)) "").isEmpty
              = false →
          merge_system_messages (ms ++ rest)
            = (rest ++ [syntheticUserMessage
                (ms.foldl (fun a mm => appendSystemText a (messageText mm)) "")],
               [])) := by
  refine ⟨?_, ?_, ?_⟩
  · intro p hp hsup r _hsys
    rcases List.mem_cons.mp hp with rfl | hp'
    · simp [openaiProvider, openaiCapabilities] at hsup
    rcases List.mem_cons.mp hp' with rfl | hp''
    · rw [countSystemMessages, List.countP_eq_zero]
      intro m hm
      rw [transform_request_messages] at hm
      have hcsys : anthropicProvider.capabilities.supports_system_role = false := rfl
      have h1 := stepSystemRole_no_system anthropicProvider.capabilities
        ⟨r, false, []⟩ hcsys
      have h2 : ∀ mm ∈ (stepResponseFormat anthropicProvider.capabilities
          (stepSystemRole anthropicProvider.capabilities ⟨r, false, []⟩)).req.messages,
          mm.role ≠ .system := by
        rw [stepResponseFormat_messages]; exact h1
      have h3 : ∀ mm ∈ (stepTools anthropicProvider.capabilities
          (stepResponseFormat anthropicProvider.capabilities
            (stepSystemRole anthropicProvider.capabilities
              ⟨r, false, []⟩))).req.messages, mm.role ≠ .system := by
        rw [stepTools_messages]; exact h2
      have h4 : ∀ mm ∈ (stepStreaming anthropicProvider.capabilities
          (stepTools anthropicProvider.capabilities
            (stepResponseFormat anthropicProvider.capabilities
              (stepSystemRole anthropicProvider.capabilities
                ⟨r, false, []⟩)))).req.messages, mm.role ≠ .system := by
        rw [stepStreaming_messages]; exact h3
      have h5 : ∀ mm ∈ (stepTemperature anthropicProvider.capabilities
          (stepStreaming anthropicProvider.capabilities
            (stepTools anthropicProvider.capabilities
              (stepResponseFormat anthropicProvider.capabilities
                (stepSystemRole anthropicProvider.capabilities
                  ⟨r, false, []⟩))))).req.messages, mm.role ≠ .system := by
        rw [stepTemperature_messages]; exact h4
      have h6 : ∀ mm ∈ (stepTopP anthropicProvider.capabilities
          (stepTemperature anthropicProvider.capabilities
            (stepStreaming anthropicProvider.capabilities
              (stepTools anthropicProvider.capabilities
                (stepResponseFormat anthropicProvider.capabilities
                  (stepSystemRole anthropicProvider.capabilities
                    ⟨r, false, []⟩)))))).req.messages, mm.role ≠ .system := by
        rw [stepTopP_messages]; exact h5
      have h7 := stepConsecutive_no_system anthropicProvider.capabilities _ h6
      have h8 : ∀ mm ∈ (stepTokenLimit anthropicProvider.capabilities
          (stepConsecutive anthropicProvider.capabilities
            (stepTopP anthropicProvider.capabilities
              (stepTemperature anthropicProvider.capabilities
                (stepStreaming anthropicProvider.capabilities
                  (stepTools anthropicProvider.capabilities
                    (stepResponseFormat anthropicProvider.capabilities
                      (stepSystemRole anthropicProvider.capabilities
                        ⟨r, false, []⟩)))))))).req.messages, mm.role ≠ .system := by
        rw [stepTokenLimit_messages]; exact h7
      have hhook : (anthropicProvider.transformRequestHook
          (stepTokenLimit anthropicProvider.capabilities
            (stepConsecutive anthropicProvider.capabilities
              (stepTopP anthropicProvider.capabilities
                (stepTemperature anthropicProvider.capabilities
                  (stepStreaming anthropicProvider.capabilities
                    (stepTools anthropicProvider.capabilities
                      (stepResponseFormat anthropicProvider.capabilities
                        (stepSystemRole anthropicProvider.capabilities
                          ⟨r, false, []⟩)))))))).req).messages
          = (stepTokenLimit anthropicProvider.capabilities
              (stepConsecutive anthropicProvider.capabilities
                (stepTopP anthropicProvider.capabilities
                  (stepTemperature anthropicProvider.capabilities
                    (stepStreaming anthropicProvider.capabilities
                      (stepTools anthropicProvider.capabilities
                        (stepResponseFormat anthropicProvider.capabilities
                          (stepSystemRole anthropicProvider.capabilities
                            ⟨r, false, []⟩)))))))).req.messages := by
        show (anthropicTransformRequest _).messages = _
        rw [anthropicTransformRequest_messages, anthropicConvertMessages_id _ h8]
      rw [hhook] at hm
      have := h8 m hm
      simpa using this
    · simp at hp''
  · intro ms hms m u rest hrole hcont hne
    unfold merge_system_messages
    rw [mergeSystemGo_sys_accum ms hms (m :: rest) ""]
    exact mergeSystemGo_user_absorb m u rest hrole hcont _ hne
  · intro ms hms rest hrest hne
    unfold merge_system_messages
    rw [mergeSystemGo_sys_accum ms hms rest ""]
    exact mergeSystemGo_trailing rest hrest _ hne

/-- Witness for `system_merge_amended`: the anthropic target and the concrete
request `[system:"S", assistant:"A"]`. -/
theorem system_merge_amended_witness :
    anthropicProvider.capabilities.supports_system_role = false
      ∧ hasSystemMessage sysThenAssistantRequest = true
      ∧ countSystemMessages
          (transform_request anthropicProvider
            sysThenAssistantRequest).transformed.messages = 0 :=
  ⟨rfl, rfl,
    system_merge_amended.1 anthropicProvider
      (List.Mem.tail _ (List.Mem.head _)) rfl sysThenAssistantRequest rfl⟩

/-- Claim C4: against a target that forbids consecutive same-role messages,
no two adjacent messages of the engine output share the same non-system role;
a run of equal-role text messages is concatenated with blank-line separators
into one message; and `[user:"A", user:"B", user:"C", assistant:"D"]` becomes
`[user:"A\n\nB\n\nC", assistant:"D"]` with the
`messages.consecutive_same_role.unsupported` reason and the lossy flag set. -/
theorem consecutive_same_role_merge :
    (∀ p ∈ programProviders, p.capabilities.supports_consecutive_same_role = false →
      ∀ r : ChatRequest,
        List.Chain' NoAdjSame (transform_request p r).transformed.messages)
    ∧ (∀ (role : MessageRole), role ≠ .system → ∀ (t0 : String) (ts : List String),
        merge_consecutive_same_role
            (Message.mk' role t0 :: ts.map (fun t => Message.mk' role t))
          = ([Message.mk' role (ts.foldl (fun a b => a ++ "\n\n" ++ b) t0)], []))
    ∧ ((transform_request anthropicProvider s2Request).transformed.messages
          = [Message.user "A\n\nB\n\nC", Message.assistant "D"]
      ∧ (transform_request anthropicProvider s2Request).reasons
          = ["messages.consecutive_same_role.unsupported"]
      ∧ (transform_request anthropicProvider s2Request).lossy = true) := by
  refine ⟨?_, ?_, rfl, rfl, rfl⟩
  · intro p hp hsup r
    rcases List.mem_cons.mp hp with rfl | hp'
    · simp [openaiProvider, openaiCapabilities] at hsup
    rcases List.mem_cons.mp hp' with rfl | hp''
    · rw [transform_request_messages]
      have hcsys : anthropicProvider.capabilities.supports_system_role = false := rfl
      have hccons : anthropicProvider.capabilities.supports_consecutive_same_role
          = false := rfl
      have h1 := stepSystemRole_no_system anthropicProvider.capabilities
        ⟨r, false, []⟩ hcsys
      have h6 : ∀ mm ∈ (stepTopP anthropicProvider.capabilities
          (stepTemperature anthropicProvider.capabilities
            (stepStreaming anthropicProvider.capabilities
              (stepTools anthropicProvider.capabilities
                (stepResponseFormat anthropicProvider.capabilities
                  (stepSystemRole anthropicProvider.capabilities
                    ⟨r, false, []⟩)))))).req.messages, mm.role ≠ .system := by
        rw [stepTopP_messages, stepTemperature_messages, stepStreaming_messages,
          stepTools_messages, stepResponseFormat_messages]
        exact h1
      have h7 := stepConsecutive_no_system anthropicProvider.capabilities _ h6
      have h8 : ∀ mm ∈ (stepTokenLimit anthropicProvider.capabilities
          (stepConsecutive anthropicProvider.capabilities
            (stepTopP anthropicProvider.capabilities
              (stepTemperature anthropicProvider.capabilities
                (stepStreaming anthropicProvider.capabilities
                  (stepTools anthropicProvider.capabilities
                    (stepResponseFormat anthropicProvider.capabilities
                      (stepSystemRole anthropicProvider.capabilities
                        ⟨r, false, []⟩)))))))).req.messages, mm.role ≠ .system := by
        rw [stepTokenLimit_messages]; exact h7
      have hchain := stepConsecutive_chain anthropicProvider.capabilities
        (stepTopP anthropicProvider.capabilities
          (stepTemperature anthropicProvider.capabilities
            (stepStreaming anthropicProvider.capabilities
              (stepTools anthropicProvider.capabilities
                (stepResponseFormat anthropicProvider.capabilities
                  (stepSystemRole anthropicProvider.capabilities
                    ⟨r, false, []⟩)))))) hccons
      have hhook : (anthropicProvider.transformRequestHook
          (stepTokenLimit anthropicProvider.capabilities
            (stepConsecutive anthropicProvider.capabilities
              (stepTopP anthropicProvider.capabilities
                (stepTemperature anthropicProvider.capabilities
                  (stepStreaming anthropicProvider.capabilities
                    (stepTools anthropicProvider.capabilities
                      (stepResponseFormat anthropicProvider.capabilities
                        (stepSystemRole anthropicProvider.capabilities
                          ⟨r, false, []⟩)))))))).req).messages
          = (stepTokenLimit anthropicProvider.capabilities
              (stepConsecutive anthropicProvider.capabilities
                (stepTopP anthropicProvider.capabilities
                  (stepTemperature anthropicProvider.capabilities
                    (stepStreaming anthropicProvider.capabilities
                      (stepTools anthropicProvider.capabilities
                        (stepResponseFormat anthropicProvider.capabilities
                          (stepSystemRole anthropicProvider.capabilities
                            ⟨r, false, []⟩)))))))).req.messages := by
        show (anthropicTransformRequest _).messages = _
        rw [anthropicTransformRequest_messages, anthropicConvertMessages_id _ h8]
      rw [hhook, stepTokenLimit_messages]
      exact hchain
    · simp at hp''
  · intro role hrole t0 ts
    unfold merge_consecutive_same_role
    exact mergeConsecGo_text_run role hrole ts (Message.mk' role t0) t0 rfl rfl

/-- Witness for `consecutive_same_role_merge` at the anthropic target and the
S2 request. -/
theorem consecutive_same_role_merge_witness :
    anthropicProvider.capabilities.supports_consecutive_same_role = false
      ∧ List.Chain' NoAdjSame
          (transform_request anthropicProvider s2Request).transformed.messages :=
  ⟨rfl,
    consecutive_same_role_merge.1 anthropicProvider
      (List.Mem.tail _ (List.Mem.head _)) rfl s2Request⟩

/-- Counterexample to claim C8 as stated: in the S5 fallback-on-timeout
scenario the routing result's cumulative attempts counter is 2, not 4 — each
call of `execute_with_retry` reports a provider-tried count of 1 regardless
of how many retry attempts it made. -/
theorem s5_attempts_counterexample :
    s5Outcome.map (fun r => r.attempts) = .ok 2 ∧ (2 : Nat) ≠ 4 :=
  ⟨rfl, by decide⟩

/-- Claim C8 (amended): when the primary provider fails every attempt with a
timeout under a retry policy with `max_retries = 2` and the first fallback
succeeds, the routing result has `used_fallback = true`, a cumulative
attempts count of 2 (one per provider tried; per-provider retry attempts are
not accumulated), the primary's provider-errors entry `"Request timeout"`
(which contains `"timeout"`), and metadata including `primary_provider` and
`fallback_provider`. -/
theorem s5_routing_behavior :
    s5Outcome.map (fun r => r.used_fallback) = .ok true
      ∧ s5Outcome.map (fun r => r.attempts) = .ok 2
      ∧ s5Outcome.map (fun r => r.provider_used) = .ok "anthropic"
      ∧ s5Outcome.map (fun r => r.provider_errors.lookup "openai")
          = .ok (some "Request timeout")
      ∧ s5Outcome.map
          (fun r => containsSubstr ((r.provider_errors.lookup "openai").getD "")
            "timeout") = .ok true
      ∧ s5Outcome.map (fun r => r.metadata.lookup "primary_provider")
          = .ok (some (Json.str "openai"))
      ∧ s5Outcome.map (fun r => r.metadata.lookup "fallback_provider")
          = .ok (some (Json.str "anthropic"))
      ∧ s5Outcome.map (fun r => r.metadata.lookup "fallback_used")
          = .ok (some (Json.bool true))
      ∧ s5Outcome.map (fun r => r.metadata.lookup "fallback_index")
          = .ok (some (Json.num 0)) :=
  ⟨rfl, rfl, rfl, rfl, rfl, rfl, rfl, rfl, rfl⟩

end Specado
